import Mathlib

/-!
Verification of the ECG PVC detection engine (Polar H10 ECG app).

This file gives a shallow embedding, over exact rationals, of the
detection and analytics core:

* `BurdenCalculator` (utils/BurdenCalculator.ts)
* `MorphologyTrainer` (utils/MorphologyTrainer.ts)
* `ImprovedPVCDetector` (utils/PVCDetector.ts)
* `BeatHistoryManager` (utils/BeatHistory.ts)

Modelling conventions, used consistently below:

* JavaScript numbers are modelled as `ℚ` (exact rationals); comparisons
  and arithmetic used by the code are exact in this band of values.
* `Math.sqrt` is modelled by `ratSqrt`, the exact rational square root of
  the normalised numerator and denominator.  `ratSqrt` agrees with the
  real square root whenever the argument is the square of a rational,
  which covers every concrete evaluation appearing in this file
  (correlations of identical normalised waveforms).  The two threshold
  comparisons of `detectBeats` against `mean ± 1.4·sqrt(variance)` are
  embedded in the equivalent squared form `d > 0 ∧ d^2 > 1.96·variance`,
  which is exact for every input.
* `Date.now()` is modelled by an explicit `now : ℚ` argument, which the
  sample-level step instantiates with the current sample's timestamp.
* `array.slice(-n)` is `jsSliceNeg n`, `array[i]` is `List.getD i 0`
  (out-of-range accesses only occur where the JS code would compare
  against `undefined` and obtain `false`; the embedding agrees there),
  and the stable JS `Array.prototype.sort` is `jsSortBy`, a stable
  insertion sort parameterised by the strict "comes before" relation of
  the comparator.
* `console.log` calls are omitted.
-/

/- The Batteries arithmetic on `Rat` is `@[irreducible]`; restore the
default reducibility inside this file so that concrete runs of the
embedded engine can be evaluated by `decide`. -/
attribute [local semireducible] Rat.add Rat.sub Rat.mul Rat.inv Rat.ofScientific

set_option maxRecDepth 40000

/-- `array.slice(-n)`: the last `n` elements (all of them when shorter). -/
def jsSliceNeg (n : Nat) (l : List α) : List α := l.drop (l.length - n)

/-- `array.slice(start, stop)` for already-clamped `0 ≤ start ≤ stop ≤ length`. -/
def jsSlice (l : List α) (start stop : Nat) : List α := (l.drop start).take (stop - start)

/-- `array[array.length - 1]` for a rational array, `0` when empty. -/
def jsLast (l : List ℚ) : ℚ := l.getD (l.length - 1) 0

/-- `Math.round`: round half towards positive infinity. -/
def jsRound (q : ℚ) : ℤ := ⌊q + 1/2⌋

/-- Exact natural square root (floor), by counting the initial segment of
values whose square does not exceed `n`. -/
def natSqrt (n : Nat) : Nat :=
  ((List.range (n + 1)).filter (fun k => decide (k * k ≤ n))).length - 1

/-- Rational model of `Math.sqrt` (see the header): exact whenever the
normalised numerator and denominator of the argument are perfect squares. -/
def ratSqrt (q : ℚ) : ℚ := (natSqrt q.num.toNat : ℚ) / (natSqrt q.den : ℚ)

/-- Stable insertion of `x` after every element it does not strictly precede. -/
def jsInsertBy (lt : α → α → Bool) (x : α) : List α → List α
  | [] => [x]
  | y :: ys => if lt x y then x :: y :: ys else y :: jsInsertBy lt x ys

/-- Stable sort with strict "comes before" relation `lt`, modelling the JS
stable `Array.prototype.sort` with a comparator (`lt x y` ↔ comparator < 0). -/
def jsSortBy (lt : α → α → Bool) (l : List α) : List α :=
  l.foldl (fun acc x => jsInsertBy lt x acc) []

/-- Ascending sort of rationals, `sort((a, b) => a - b)`. -/
def jsSortAsc (l : List ℚ) : List ℚ := jsSortBy (fun a b => decide (a < b)) l

/-! ## BurdenCalculator (utils/BurdenCalculator.ts) -/

inductive BurdenCategory
  | low
  | moderate
  | high
deriving DecidableEq

/-- Return type of `BurdenCalculator.calculateBurden`. -/
structure BurdenStats where
  totalBeats : ℚ
  normalBeats : ℚ
  pvcBeats : ℚ
  burden : ℚ
  burdenCategory : BurdenCategory
  confidence : ℚ
  timeWindow : ℚ
  averageHeartRate : ℚ
deriving DecidableEq

/-- `BurdenCalculator.categorizeBurden`. -/
def categorizeBurden (burden : ℚ) : BurdenCategory :=
  if burden < 1 then .low
  else if burden < 10 then .moderate
  else .high

/-- `BurdenCalculator.calculateConfidence`. -/
def calculateConfidence (totalBeats timeWindowMinutes heartRate : ℚ) : ℚ :=
  let c1 : ℚ :=
    if timeWindowMinutes ≥ 30 then 4/10
    else if timeWindowMinutes ≥ 10 then 3/10
    else if timeWindowMinutes ≥ 5 then 2/10
    else if timeWindowMinutes ≥ 1 then 1/10
    else 0
  let c2 : ℚ :=
    if totalBeats ≥ 3000 then 3/10
    else if totalBeats ≥ 1000 then 2/10
    else if totalBeats ≥ 300 then 1/10
    else 0
  let c3 : ℚ :=
    if heartRate ≥ 50 ∧ heartRate ≤ 120 then 2/10
    else if heartRate > 0 then 1/10
    else 0
  let c4 : ℚ :=
    if heartRate > 0 ∧ timeWindowMinutes > 0 then
      let expectedBeats := heartRate * timeWindowMinutes
      let detectionQuotient := totalBeats / expectedBeats
      if detectionQuotient ≥ 8/10 ∧ detectionQuotient ≤ 12/10 then 1/10 else 0
    else 0
  min 1 (c1 + c2 + c3 + c4)

/-- `BurdenCalculator.calculateBurden`. -/
def calculateBurden (detectedBeats pvcCount timeSpanMs heartRate : ℚ) : BurdenStats :=
  let totalBeats := detectedBeats
  let normalBeats := max 0 (totalBeats - pvcCount)
  let burden : ℚ := if totalBeats > 0 then (pvcCount / totalBeats) * 100 else 0
  let timeWindowMinutes := timeSpanMs / (1000 * 60)
  let confidence := calculateConfidence totalBeats timeWindowMinutes heartRate
  { totalBeats := totalBeats
    normalBeats := normalBeats
    pvcBeats := pvcCount
    burden := (jsRound (burden * 100) : ℚ) / 100
    burdenCategory := categorizeBurden burden
    confidence := confidence
    timeWindow := timeWindowMinutes
    averageHeartRate := heartRate }

/-! ## Shared correlation (identical private methods of
`ImprovedPVCDetector` and `MorphologyTrainer`) -/

/-- `calculateCorrelation`: Pearson correlation over the common prefix,
`0` when fewer than 10 overlapping samples.  The `Math.sqrt` of the
denominator is modelled by `ratSqrt` (see the header). -/
def calculateCorrelation (beat1 beat2 : List ℚ) : ℚ :=
  let minLength := min beat1.length beat2.length
  if minLength < 10 then 0
  else
    let b1 := beat1.take minLength
    let b2 := beat2.take minLength
    let mean1 := b1.sum / (b1.length : ℚ)
    let mean2 := b2.sum / (b2.length : ℚ)
    let numer := ((b1.zip b2).map (fun p => (p.1 - mean1) * (p.2 - mean2))).sum
    let sum1 := (b1.map (fun x => (x - mean1) ^ 2)).sum
    let sum2 := (b2.map (fun x => (x - mean2) ^ 2)).sum
    let denom := ratSqrt (sum1 * sum2)
    if denom = 0 then 0 else numer / denom

/-! ## MorphologyTrainer (utils/MorphologyTrainer.ts)

Class constants: `correlationThreshold = 0.7`, `minClusterSize = 3`,
`beatWindow = 60`. -/

/-- A beat collected during the Learning state (`learningBeats` entries). -/
structure LearningBeat where
  data : List ℚ
  index : Nat
  amplitude : ℚ
  qrsWidth : ℚ
deriving DecidableEq, Inhabited

/-- `TrainingBeat`: a learning beat plus its normalised morphology window. -/
structure TrainingBeat where
  data : List ℚ
  index : Nat
  amplitude : ℚ
  qrsWidth : ℚ
  normalizedMorphology : List ℚ
deriving DecidableEq, Inhabited

/-- `MorphologyCluster`. -/
structure MorphologyCluster where
  beats : List TrainingBeat
  centroid : List ℚ
  avgCorrelation : ℚ
  isNormal : Bool
deriving DecidableEq, Inhabited

/-- `TrainingResult`. -/
structure TrainingResult where
  normalTemplates : List (List ℚ)
  clustersFound : Nat
  normalClusterSize : Nat
  confidence : ℚ
  qualityScore : ℚ
deriving DecidableEq, Inhabited

/-- `MorphologyTrainer.normalizeBeats`. -/
def normalizeBeats (beats : List LearningBeat) : List TrainingBeat :=
  (beats.map (fun beat =>
    let start := beat.index - 60
    let stop := min beat.data.length (beat.index + 60)
    let morphology := jsSlice beat.data start stop
    let maxAmp := ((morphology.map abs).max?).getD 0
    let normalizedMorphology :=
      if maxAmp > 0 then morphology.map (· / maxAmp) else morphology
    { data := beat.data
      index := beat.index
      amplitude := beat.amplitude
      qrsWidth := beat.qrsWidth
      normalizedMorphology := normalizedMorphology })).filter
    (fun b => decide (20 < b.normalizedMorphology.length))

/-- The greedy single-pass clustering loop of
`MorphologyTrainer.clusterBeatsByMorphology`, structured with explicit
fuel (always at least the list length, so the fuel never runs out): the
head of the unassigned list seeds a cluster that absorbs every later
unassigned beat correlating above the 0.7 threshold with the seed. -/
def buildClustersAux : Nat → List TrainingBeat → List (List TrainingBeat)
  | _, [] => []
  | 0, _ :: _ => []
  | fuel + 1, b :: rest =>
      let absorbed := rest.filter (fun c =>
        decide (calculateCorrelation b.normalizedMorphology c.normalizedMorphology > 7/10))
      let remaining := rest.filter (fun c =>
        decide (¬ calculateCorrelation b.normalizedMorphology c.normalizedMorphology > 7/10))
      (b :: absorbed) :: buildClustersAux fuel remaining

/-- The greedy clusters of a beat list (see `buildClustersAux`). -/
def buildClusters (beats : List TrainingBeat) : List (List TrainingBeat) :=
  buildClustersAux beats.length beats

/-- `MorphologyTrainer.calculateCentroid`: per-index mean over the members
long enough to contribute at that index. -/
def calculateCentroid (beats : List TrainingBeat) : List ℚ :=
  if beats.length = 0 then []
  else
    let maxLength := ((beats.map (fun b => b.normalizedMorphology.length)).max?).getD 0
    (List.range maxLength).map (fun i =>
      let contributing := beats.filter (fun b => decide (i < b.normalizedMorphology.length))
      let s := (contributing.map (fun b => b.normalizedMorphology.getD i 0)).sum
      let count := contributing.length
      if count > 0 then s / (count : ℚ) else 0)

/-- Sum of pairwise correlations over all unordered pairs, in the loop
order of `calculateAvgIntraClusterCorrelation`. -/
def pairCorrelationSum : List TrainingBeat → ℚ
  | [] => 0
  | b :: rest =>
      (rest.map (fun c =>
        calculateCorrelation b.normalizedMorphology c.normalizedMorphology)).sum
        + pairCorrelationSum rest

/-- `MorphologyTrainer.calculateAvgIntraClusterCorrelation`. -/
def calculateAvgIntraClusterCorrelation (beats : List TrainingBeat) : ℚ :=
  if beats.length < 2 then 1
  else
    let comparisons := beats.length * (beats.length - 1) / 2
    if comparisons > 0 then pairCorrelationSum beats / (comparisons : ℚ) else 0

/-- `MorphologyTrainer.clusterBeatsByMorphology`: greedy clusters, kept at
size ≥ 3, sorted by size descending (stable, as the JS sort). -/
def clusterBeatsByMorphology (beats : List TrainingBeat) : List MorphologyCluster :=
  let kept := (buildClusters beats).filter (fun cb => decide (3 ≤ cb.length))
  let clusters := kept.map (fun cb =>
    { beats := cb
      centroid := calculateCentroid cb
      avgCorrelation := calculateAvgIntraClusterCorrelation cb
      isNormal := false : MorphologyCluster })
  jsSortBy (fun a b => decide (b.beats.length < a.beats.length)) clusters

/-- `MorphologyTrainer.findDominantCluster`: the largest cluster (head of
the size-sorted list), marked normal; `none` when no cluster survived. -/
def findDominantCluster : List MorphologyCluster → Option MorphologyCluster
  | [] => none
  | c :: _ => some { c with isNormal := true }

/-- `MorphologyTrainer.generateTemplatesFromCluster`: the centroid plus the
five members best correlated with it (stable descending sort). -/
def generateTemplatesFromCluster (cluster : MorphologyCluster) : List (List ℚ) :=
  let representatives := (jsSortBy (fun a b => decide (b.2 < a.2))
      (cluster.beats.map (fun beat =>
        (beat, calculateCorrelation beat.normalizedMorphology cluster.centroid)))).take 5
  cluster.centroid :: representatives.map (fun p => p.1.normalizedMorphology)

/-- `MorphologyTrainer.calculateTrainingConfidence`. -/
def calculateTrainingConfidence (dominantCluster : MorphologyCluster)
    (allClusters : List MorphologyCluster) : ℚ :=
  let totalBeats : ℚ := allClusters.foldl (fun a c => a + (c.beats.length : ℚ)) 0
  let dominance := (dominantCluster.beats.length : ℚ) / totalBeats
  min 1 (dominance * dominantCluster.avgCorrelation * (12/10))

/-- `MorphologyTrainer.calculateQualityScore`. -/
def calculateQualityScore (cluster : MorphologyCluster) : ℚ :=
  let sizeScore := min 1 ((cluster.beats.length : ℚ) / 20)
  let correlationScore := cluster.avgCorrelation
  let qrsWidths := cluster.beats.map (fun b => b.qrsWidth)
  let avgQRS := qrsWidths.sum / (qrsWidths.length : ℚ)
  let qrsVariance := (qrsWidths.map (fun w => (w - avgQRS) ^ 2)).sum / (qrsWidths.length : ℚ)
  let qrsConsistency := max 0 (1 - qrsVariance / 100)
  (sizeScore + correlationScore + qrsConsistency) / 3

/-- `MorphologyTrainer.trainFromBeats` (the `samplingRate` argument is
unused by the TS body as well). -/
def trainFromBeats (collectedBeats : List LearningBeat) (_samplingRate : ℚ) : TrainingResult :=
  let trainingBeats := normalizeBeats collectedBeats
  let clusters := clusterBeatsByMorphology trainingBeats
  match findDominantCluster clusters with
  | none =>
      { normalTemplates := []
        clustersFound := clusters.length
        normalClusterSize := 0
        confidence := 0
        qualityScore := 0 }
  | some dominantCluster =>
      let templates := generateTemplatesFromCluster dominantCluster
      { normalTemplates := templates
        clustersFound := clusters.length
        normalClusterSize := dominantCluster.beats.length
        confidence := calculateTrainingConfidence dominantCluster clusters
        qualityScore := calculateQualityScore dominantCluster }

/-! ## ImprovedPVCDetector (utils/PVCDetector.ts)

The class instance is modelled as an explicit `DetectorState` record; each
method becomes a function from state (plus arguments) to state.  The
`MorphologyTrainer` member holds no mutable state and therefore needs no
field. -/

inductive DetectionPathway
  | highAmplitude
  | wideQrs
  | prematureMorph
  | gapDetected
  | morphologyOnly
deriving DecidableEq, Inhabited

/-- `PVCEvent` (the optional `isInferred` flag is `false` where the TS
code leaves it undefined). -/
structure PVCEvent where
  timestamp : ℚ
  currentRR : ℚ
  expectedRR : ℚ
  percentagePremature : ℤ
  qrsWidth : ℚ
  confidence : ℚ
  morphologyScore : ℚ
  detectionPathway : DetectionPathway
  amplitude : ℚ
  isInferred : Bool
deriving DecidableEq, Inhabited

/-- `PVCDetectionResult`. -/
structure PVCDetectionResult where
  pvcCount : Nat
  totalBeats : Nat
  detectedBeats : Nat
  heartRate : ℤ
  isPVC : Bool
  pvcEvents : List PVCEvent
  timeSpanMs : ℚ
  signalQuality : ℚ
deriving DecidableEq, Inhabited

/-- The mutable fields of `ImprovedPVCDetector`. -/
structure DetectorState where
  ecgBuffer : List ℚ
  timeBuffer : List ℚ
  rPeaks : List ℚ
  rPeakAmplitudes : List ℚ
  qrsWidths : List ℚ
  normalTemplates : List (List ℚ)
  rrHistory : List ℚ
  pvcCount : Nat
  pvcEvents : List PVCEvent
  inferredPvcEvents : List PVCEvent
  startTime : ℚ
  totalDetectedBeats : Nat
  isLearningMode : Bool
  learningBeatCount : Nat
  maxLearningBeats : Nat
  learningBeats : List LearningBeat
  trainingResult : Option TrainingResult
  samplingRate : ℚ
deriving DecidableEq, Inhabited

/-- The constructor state: `samplingRate` is the constructor argument
(default 130) and `now0` models the `Date.now()` stored into `startTime`. -/
def initialState (samplingRate now0 : ℚ) : DetectorState :=
  { ecgBuffer := []
    timeBuffer := []
    rPeaks := []
    rPeakAmplitudes := []
    qrsWidths := []
    normalTemplates := []
    rrHistory := []
    pvcCount := 0
    pvcEvents := []
    inferredPvcEvents := []
    startTime := now0
    totalDetectedBeats := 0
    isLearningMode := true
    learningBeatCount := 0
    maxLearningBeats := 40
    learningBeats := []
    trainingResult := none
    samplingRate := samplingRate }

/-- A candidate peak as collected by `detectBeats`. -/
structure Peak where
  time : ℚ
  index : Nat
  amplitude : ℚ
deriving DecidableEq, Inhabited

/-- `calculateLocalBaseline`. -/
def calculateLocalBaseline (data : List ℚ) (peakIndex : Nat) : ℚ :=
  let windowSize := 20
  let beforeStart := peakIndex - windowSize * 2
  let beforeEnd := peakIndex - windowSize
  let afterStart := min data.length (peakIndex + windowSize)
  let afterEnd := min data.length (peakIndex + windowSize * 2)
  let beforeValues := jsSlice data beforeStart beforeEnd
  let afterValues := jsSlice data afterStart afterEnd
  let allValues := beforeValues ++ afterValues
  if allValues.length > 0 then allValues.sum / (allValues.length : ℚ) else 0

/-- `calculateQRSWidth`: walk outwards from the peak until the signal
returns within 15% of the peak amplitude relative to the local baseline. -/
def calculateQRSWidth (samplingRate : ℚ) (data : List ℚ) (peakIndex : Nat) : ℚ :=
  let searchWindow := (⌊samplingRate * (1/10)⌋).toNat
  let start := peakIndex - searchWindow
  let stop := min data.length (peakIndex + searchWindow)
  let baseline := calculateLocalBaseline data peakIndex
  let peakAmplitude := |data.getD peakIndex 0 - baseline|
  let threshold := peakAmplitude * (15/100)
  let onset := (((List.range' start (peakIndex - start)).reverse).find?
    (fun i => decide (|data.getD i 0 - baseline| < threshold))).getD peakIndex
  let offset := ((List.range' (peakIndex + 1) (stop - (peakIndex + 1))).find?
    (fun i => decide (|data.getD i 0 - baseline| < threshold))).getD peakIndex
  (((offset : ℚ) - (onset : ℚ)) / samplingRate) * 1000

/-- `calculateSimpleMorphology`: dissimilarity (1 − max correlation) of the
normalised ±60-sample window against the last ≤10 normal templates. -/
def calculateSimpleMorphology (data : List ℚ) (peakIndex : Nat)
    (normalTemplates : List (List ℚ)) : ℚ :=
  let beatWindow := 60
  let start := peakIndex - beatWindow
  let stop := min data.length (peakIndex + beatWindow)
  let currentBeat := jsSlice data start stop
  let maxAmp := ((currentBeat.map abs).max?).getD 0
  if maxAmp = 0 then 0
  else
    let normalizedBeat := currentBeat.map (· / maxAmp)
    let maxCorrelation := (jsSliceNeg 10 normalTemplates).foldl
      (fun m t => max m (calculateCorrelation normalizedBeat t)) 0
    max 0 (1 - maxCorrelation)

/-- The expected-RR computation of `analyzeBeat`: median of the last ≤20
trusted RR values inside the (500, 1200) ms band, defaulting to 800. -/
def expectedRROf (rrHistory : List ℚ) : ℚ :=
  let recentRRs := jsSliceNeg 20 rrHistory
  let normalRRs := recentRRs.filter (fun rr => decide (rr > 500) && decide (rr < 1200))
  if normalRRs.length = 0 then 800
  else
    let sortedRRs := jsSortAsc normalRRs
    sortedRRs.getD (sortedRRs.length / 2) 0

/-- The record returned by `analyzeBeat`. -/
structure BeatAnalysis where
  isPVC : Bool
  currentRR : ℚ
  expectedRR : ℚ
  percentagePremature : ℤ
  confidence : ℚ
  morphologyScore : ℚ
  pathway : DetectionPathway
deriving DecidableEq, Inhabited

/-- `analyzeBeat`: the multi-pathway classifier.  `rrHistory` already ends
with the current beat's raw RR (pushed by `processPeak` before analysis). -/
def analyzeBeat (rrHistory : List ℚ) (data : List ℚ) (peakIndex : Nat)
    (amplitude qrsWidth : ℚ) (normalTemplates : List (List ℚ)) : BeatAnalysis :=
  if rrHistory.length = 0 then
    { isPVC := false, currentRR := 0, expectedRR := 0, percentagePremature := 0
      confidence := 0, morphologyScore := 0, pathway := .highAmplitude }
  else
    let currentRR := jsLast rrHistory
    let nextRR := if rrHistory.length > 1 then rrHistory.getD (rrHistory.length - 2) 0
                  else currentRR
    let expectedRR := expectedRROf rrHistory
    let morphologyScore := calculateSimpleMorphology data peakIndex normalTemplates
    if morphologyScore > 7/10 then
      { isPVC := true, currentRR := currentRR, expectedRR := expectedRR
        percentagePremature := jsRound ((1 - currentRR / expectedRR) * 100)
        confidence := min (9/10) morphologyScore
        morphologyScore := morphologyScore, pathway := .morphologyOnly }
    else
      let isHighAmplitude := amplitude > 600
      let isVeryHighAmplitude := amplitude > 800
      let isWide := qrsWidth > 120
      let isPremature := currentRR < expectedRR * (80/100)
      let isVeryPremature := currentRR < expectedRR * (70/100)
      let isModeratelyPremature := currentRR < expectedRR * (85/100)
      let hasCompensatoryPause := nextRR > expectedRR * (125/100)
      let hasAbnormalMorphology := morphologyScore > 12/100
      let hasModerateAbnormalMorphology := morphologyScore > 8/100
      let percentagePremature := jsRound ((1 - currentRR / expectedRR) * 100)
      if isVeryHighAmplitude ∨ (isHighAmplitude ∧ isPremature) then
        { isPVC := true, currentRR := currentRR, expectedRR := expectedRR
          percentagePremature := percentagePremature, confidence := 9/10
          morphologyScore := morphologyScore, pathway := .highAmplitude }
      else if isWide ∧ isPremature then
        { isPVC := true, currentRR := currentRR, expectedRR := expectedRR
          percentagePremature := percentagePremature, confidence := 8/10
          morphologyScore := morphologyScore, pathway := .wideQrs }
      else if isVeryPremature ∧ hasAbnormalMorphology then
        { isPVC := true, currentRR := currentRR, expectedRR := expectedRR
          percentagePremature := percentagePremature, confidence := 7/10
          morphologyScore := morphologyScore, pathway := .prematureMorph }
      else if hasCompensatoryPause ∧ isModeratelyPremature then
        { isPVC := true, currentRR := currentRR, expectedRR := expectedRR
          percentagePremature := percentagePremature
          confidence := if hasModerateAbnormalMorphology then 75/100 else 6/10
          morphologyScore := morphologyScore, pathway := .prematureMorph }
      else
        { isPVC := false, currentRR := currentRR, expectedRR := expectedRR
          percentagePremature := percentagePremature, confidence := 0
          morphologyScore := morphologyScore, pathway := .highAmplitude }

/-- `updateRRHistory`: recompute the trusted (normal-to-normal) intervals
from the retained peaks, then keep the last 15 old values plus the new
ones, truncated to the last 30 — but only when at least one new interval
was admitted. -/
def updateRRHistory (s : DetectorState) : DetectorState :=
  if s.rPeaks.length < 2 then s
  else
    let newRRs := (List.range' 1 (s.rPeaks.length - 1)).filterMap (fun i =>
      let rrInterval := s.rPeaks.getD i 0 - s.rPeaks.getD (i - 1) 0
      let currentTime := s.rPeaks.getD i 0
      let prevTime := s.rPeaks.getD (i - 1) 0
      let currentBeatIsPVC := s.pvcEvents.any (fun pvc =>
        decide (|pvc.timestamp - currentTime| < 100))
      let prevBeatIsPVC := s.pvcEvents.any (fun pvc =>
        decide (|pvc.timestamp - prevTime| < 100))
      if ¬currentBeatIsPVC ∧ ¬prevBeatIsPVC ∧ rrInterval > 400 ∧ rrInterval < 1500 then
        some rrInterval
      else none)
    if newRRs.length > 0 then
      { s with rrHistory := jsSliceNeg 30 (jsSliceNeg 15 s.rrHistory ++ newRRs) }
    else s

/-- `storeNormalTemplate`: append the normalised ±60-sample window, capped
to the last 12 templates. -/
def storeNormalTemplate (s : DetectorState) (data : List ℚ) (peakIndex : Nat) :
    DetectorState :=
  let beatWindow := 60
  let start := peakIndex - beatWindow
  let stop := min data.length (peakIndex + beatWindow)
  let beat := jsSlice data start stop
  let maxAmp := ((beat.map abs).max?).getD 0
  if maxAmp = 0 then s
  else
    let normalizedBeat := beat.map (· / maxAmp)
    let templates := s.normalTemplates ++ [normalizedBeat]
    { s with normalTemplates :=
        if templates.length > 12 then jsSliceNeg 12 templates else templates }

/-- `cleanOldData`: prune peaks (with aligned amplitude and QRS arrays)
below the cutoff — skipped entirely when the first retained peak is
already fresh — and filter the direct PVC events. -/
def cleanOldData (s : DetectorState) (cutoffTime : ℚ) : DetectorState :=
  let validIndices := (List.range s.rPeaks.length).filter (fun i =>
    decide (s.rPeaks.getD i 0 ≥ cutoffTime))
  let s1 :=
    if validIndices.length > 0 ∧ validIndices.getD 0 0 > 0 then
      { s with rPeaks := validIndices.map (fun i => s.rPeaks.getD i 0)
               rPeakAmplitudes := validIndices.map (fun i => s.rPeakAmplitudes.getD i 0)
               qrsWidths := validIndices.map (fun i => s.qrsWidths.getD i 0) }
    else s
  { s1 with pvcEvents := s1.pvcEvents.filter (fun e => decide (e.timestamp ≥ cutoffTime)) }

/-- The last-10 trusted RR values inside the (500, 1200) band used by
`detectGapBasedPVCs`. -/
def gapNormalRRs (rrHistory : List ℚ) : List ℚ :=
  (jsSliceNeg 10 rrHistory).filter (fun rr => decide (rr > 500) && decide (rr < 1200))

/-- The median of `gapNormalRRs` as computed by `detectGapBasedPVCs`. -/
def gapMedian (rrHistory : List ℚ) : ℚ :=
  let sortedNormalRRs := jsSortAsc (gapNormalRRs rrHistory)
  sortedNormalRRs.getD (sortedNormalRRs.length / 2) 0

/-- The inferred PVC event `detectGapBasedPVCs` synthesizes for the most
recent interval of a state: placed at the interval midpoint, with half
the gap as its RR, the trusted median as expected RR, fixed confidence
0.5 and pathway gap-detected. -/
def gapEventOf (s : DetectorState) : PVCEvent :=
  { timestamp := s.rPeaks.getD (s.rPeaks.length - 1 - 1) 0 +
      (s.rPeaks.getD (s.rPeaks.length - 1) 0 - s.rPeaks.getD (s.rPeaks.length - 1 - 1) 0) / 2
    currentRR := (s.rPeaks.getD (s.rPeaks.length - 1) 0 -
      s.rPeaks.getD (s.rPeaks.length - 1 - 1) 0) / 2
    expectedRR := gapMedian s.rrHistory
    percentagePremature := 0
    qrsWidth := 0
    confidence := 1/2
    morphologyScore := 0
    detectionPathway := DetectionPathway.gapDetected
    amplitude := 0
    isInferred := true }

/-- `detectGapBasedPVCs`: the parallel gap-inference pass.  `now` models
the `Date.now()` used to prune old inferred events. -/
def detectGapBasedPVCs (s : DetectorState) (now : ℚ) : DetectorState :=
  if s.rPeaks.length < 6 then s
  else if s.rPeaks.length % 5 ≠ 0 then s
  else if (gapNormalRRs s.rrHistory).length < 5 then s
  else
    let medianNormalRR := gapMedian s.rrHistory
    let lastIndex := s.rPeaks.length - 1
    if lastIndex < 1 then s
    else
      let currentRR := s.rPeaks.getD lastIndex 0 - s.rPeaks.getD (lastIndex - 1) 0
      let prevBeatTime := s.rPeaks.getD (lastIndex - 1) 0
      let nextBeatTime := s.rPeaks.getD lastIndex 0
      let isVeryLongGap := currentRR > medianNormalRR * (18/10)
      let s1 :=
        if isVeryLongGap then
          let prevBeatIsPVC := s.pvcEvents.any (fun pvc =>
            decide (|pvc.timestamp - prevBeatTime| < 200))
          let nextBeatIsPVC := s.pvcEvents.any (fun pvc =>
            decide (|pvc.timestamp - nextBeatTime| < 200))
          let alreadyInferred := s.inferredPvcEvents.any (fun pvc =>
            decide (pvc.timestamp > prevBeatTime) && decide (pvc.timestamp < nextBeatTime))
          if ¬prevBeatIsPVC ∧ ¬nextBeatIsPVC ∧ ¬alreadyInferred then
            { s with
              inferredPvcEvents := s.inferredPvcEvents ++
                [{ timestamp := prevBeatTime + currentRR / 2
                   currentRR := currentRR / 2
                   expectedRR := medianNormalRR
                   percentagePremature := 0
                   qrsWidth := 0
                   confidence := 1/2
                   morphologyScore := 0
                   detectionPathway := .gapDetected
                   amplitude := 0
                   isInferred := true }]
              pvcCount := s.pvcCount + 1 }
          else s
        else s
      { s1 with inferredPvcEvents := s1.inferredPvcEvents.filter (fun e =>
          decide (e.timestamp ≥ now - 120000)) }

/-- `updateRRHistoryFromLearning`: seed the trusted RR history with the
intervals of the learning-phase peaks. -/
def updateRRHistoryFromLearning (s : DetectorState) : DetectorState :=
  if s.rPeaks.length < 2 then s
  else
    let learningRRs := (List.range' 1 (min s.rPeaks.length (s.learningBeatCount + 1) - 1)).map
      (fun i => s.rPeaks.getD i 0 - s.rPeaks.getD (i - 1) 0)
    { s with rrHistory := learningRRs }

/-- `finalizeLearning`: train on the collected beats, discard the templates
when the confidence is below 0.5, seed the RR history, and exit Learning.
`now` models the `Date.now()` stored into `startTime`. -/
def finalizeLearning (s : DetectorState) (now : ℚ) : DetectorState :=
  let tr := trainFromBeats s.learningBeats s.samplingRate
  let s1 := { s with
    trainingResult := some tr
    normalTemplates := if tr.confidence < 1/2 then [] else tr.normalTemplates }
  let s2 := updateRRHistoryFromLearning s1
  { s2 with isLearningMode := false, learningBeats := [], startTime := now }

/-- `handleLearningMode`: count and store the beat; finalize once the
learning batch is full. -/
def handleLearningMode (s : DetectorState) (peak : Peak) (data : List ℚ)
    (qrsWidth : ℚ) (now : ℚ) : DetectorState :=
  let s1 := { s with
    learningBeatCount := s.learningBeatCount + 1
    learningBeats := s.learningBeats ++
      [{ data := data, index := peak.index, amplitude := peak.amplitude
         qrsWidth := qrsWidth }] }
  if s1.learningBeatCount ≥ s1.maxLearningBeats then finalizeLearning s1 now else s1

/-- `processPeak`: register the beat, prune old data, then either learn
from it or (in Detecting mode, with ≥8 retained peaks) push the raw
current RR, classify, update the trusted history, and record the verdict. -/
def processPeak (s0 : DetectorState) (peak : Peak) (data : List ℚ) (now : ℚ) :
    DetectorState :=
  let s1 := { s0 with
    rPeaks := s0.rPeaks ++ [peak.time]
    rPeakAmplitudes := s0.rPeakAmplitudes ++ [peak.amplitude]
    totalDetectedBeats := s0.totalDetectedBeats + 1 }
  let qrsWidth := calculateQRSWidth s1.samplingRate data peak.index
  let s2 := { s1 with qrsWidths := s1.qrsWidths ++ [qrsWidth] }
  let cutoffTime := peak.time - 120000
  let s3 := cleanOldData s2 cutoffTime
  if s3.isLearningMode then handleLearningMode s3 peak data qrsWidth now
  else if s3.rPeaks.length < 8 then s3
  else
    let s4 :=
      if s3.rPeaks.length ≥ 2 then
        { s3 with rrHistory := s3.rrHistory ++
            [s3.rPeaks.getD (s3.rPeaks.length - 1) 0 - s3.rPeaks.getD (s3.rPeaks.length - 2) 0] }
      else s3
    let analysis := analyzeBeat s4.rrHistory data peak.index peak.amplitude qrsWidth
      s4.normalTemplates
    let s5 := updateRRHistory s4
    if analysis.isPVC then
      { s5 with
        pvcCount := s5.pvcCount + 1
        pvcEvents := s5.pvcEvents ++
          [{ timestamp := peak.time
             currentRR := analysis.currentRR
             expectedRR := analysis.expectedRR
             percentagePremature := analysis.percentagePremature
             qrsWidth := qrsWidth
             confidence := analysis.confidence
             morphologyScore := analysis.morphologyScore
             detectionPathway := analysis.pathway
             amplitude := peak.amplitude
             isInferred := false }] }
    else
      if s5.rrHistory.length > 0 then
        let currentRR := jsLast s5.rrHistory
        let recentRRs := jsSliceNeg 10 s5.rrHistory
        let avgRR := recentRRs.sum / (recentRRs.length : ℚ)
        let isPremature := currentRR < avgRR * (85/100)
        if analysis.confidence < 1/10 ∧ ¬isPremature ∧ peak.amplitude < 500 ∧ qrsWidth < 90 then
          storeNormalTemplate s5 data peak.index
        else s5
      else s5

/-- `isValidPeak`: inside the ±5-sample window at most one other sample
may violate the strict ordering. -/
def isValidPeak (data : List ℚ) (index : Nat) (positive : Bool) : Bool :=
  let windowSize := 5
  let start := index - windowSize
  let stop := min data.length (index + windowSize)
  let invalidCount := ((List.range' start (stop - start)).filter (fun i =>
    decide (i ≠ index) &&
      (if positive then decide (data.getD i 0 ≥ data.getD index 0)
       else decide (data.getD i 0 ≤ data.getD index 0)))).length
  decide (invalidCount ≤ 1)

/-- The candidate test of the `detectBeats` scan loop at buffer index `i`.
The comparisons against `mean ± 1.4·sqrt(variance)` are embedded in the
equivalent squared form (see the header).  The refractory check compares
against the last peak registered before the scan started. -/
def candidatePeakAt (data times : List ℚ) (mean variance lastPeakTime : ℚ)
    (i : Nat) : Option Peak :=
  let d := data.getD i 0
  let posPeak := decide (d - mean > 0) && decide ((d - mean) ^ 2 > (49/25) * variance) &&
    decide (d > data.getD (i - 1) 0) && decide (d > data.getD (i + 1) 0) &&
    isValidPeak data i true
  let negPeak := decide (mean - d > 0) && decide ((mean - d) ^ 2 > (49/25) * variance) &&
    decide (d < data.getD (i - 1) 0) && decide (d < data.getD (i + 1) 0) &&
    isValidPeak data i false
  if posPeak then
    if times.getD i 0 - lastPeakTime > 300 then
      some { time := times.getD i 0, index := i, amplitude := d }
    else none
  else if negPeak then
    if times.getD i 0 - lastPeakTime > 300 then
      some { time := times.getD i 0, index := i, amplitude := |d| }
    else none
  else none

/-- `detectBeats`: adaptive-threshold scan over the buffer, then process
every new candidate and finally run the parallel gap-inference pass. -/
def detectBeats (s : DetectorState) (now : ℚ) : DetectorState :=
  if s.ecgBuffer.length < 130 then s
  else
    let data := s.ecgBuffer
    let times := s.timeBuffer
    let mean := data.sum / (data.length : ℚ)
    let variance := (data.map (fun b => (b - mean) ^ 2)).sum / (data.length : ℚ)
    let minDistance := (⌊s.samplingRate * (3/10)⌋).toNat
    let lastPeakTime := if s.rPeaks.length > 0 then jsLast s.rPeaks else 0
    let newPeaks := (List.range' minDistance (data.length - minDistance - minDistance)).filterMap
      (candidatePeakAt data times mean variance lastPeakTime)
    let s1 := newPeaks.foldl (fun st p => processPeak st p data now) s
    if s1.rPeaks.length > 5 then detectGapBasedPVCs s1 now else s1

/-- `calculateSignalQuality`: clipped signal-to-noise proxy over the last
130 samples (`Math.sqrt` modelled by `ratSqrt`; a zero-variance window
yields 0 where JS arithmetic would produce `Infinity`/`NaN`, a degenerate
case no claim depends on). -/
def calculateSignalQuality (ecgBuffer : List ℚ) : ℚ :=
  if ecgBuffer.length < 130 then 0
  else
    let data := jsSliceNeg 130 ecgBuffer
    let mean := data.sum / (data.length : ℚ)
    let variance := (data.map (fun v => (v - mean) ^ 2)).sum / (data.length : ℚ)
    let snr := |mean| / ratSqrt variance
    min 1 (snr / 10)

/-- `getResult`: the detection snapshot; during Learning the counters,
heart rate and event list are masked to zero/empty. -/
def getResult (s : DetectorState) : PVCDetectionResult :=
  let heartRate : ℤ :=
    if s.rrHistory.length ≥ 3 then
      let recentRRs := jsSliceNeg 5 s.rrHistory
      let avgInterval := recentRRs.sum / (recentRRs.length : ℚ)
      let hr := jsRound (60000 / avgInterval)
      if hr < 40 ∨ hr > 200 then 0 else hr
    else 0
  let currentTime := if s.timeBuffer.length > 0 then jsLast s.timeBuffer else s.startTime
  let timeSpanMs := currentTime - s.startTime
  let allPvcEvents := jsSortBy (fun a b => decide (a.timestamp < b.timestamp))
    (s.pvcEvents ++ s.inferredPvcEvents)
  { pvcCount := if s.isLearningMode then 0 else s.pvcCount
    totalBeats := if s.isLearningMode then 0 else s.totalDetectedBeats
    detectedBeats := if s.isLearningMode then 0 else s.totalDetectedBeats
    heartRate := if s.isLearningMode then 0 else heartRate
    isPVC := false
    pvcEvents := if s.isLearningMode then [] else allPvcEvents
    timeSpanMs := timeSpanMs
    signalQuality := calculateSignalQuality s.ecgBuffer }

/-- `processECGSample`: buffer the sample (bounded to 390), run a
detection pass every 10th sample, and return the snapshot.  The sample's
timestamp doubles as the `Date.now()` model for the pass. -/
def processECGSample (s0 : DetectorState) (amplitude timestamp : ℚ) :
    DetectorState × PVCDetectionResult :=
  let s1 := if s0.startTime = 0 then { s0 with startTime := timestamp } else s0
  let s2 := { s1 with ecgBuffer := s1.ecgBuffer ++ [amplitude]
                      timeBuffer := s1.timeBuffer ++ [timestamp] }
  let s3 :=
    if s2.ecgBuffer.length > 390 then
      { s2 with ecgBuffer := jsSliceNeg 390 s2.ecgBuffer
                timeBuffer := jsSliceNeg 390 s2.timeBuffer }
    else s2
  let s4 := if s3.ecgBuffer.length % 10 = 0 then detectBeats s3 timestamp else s3
  (s4, getResult s4)

/-- `resetCounters`: the counters-only reset (`now` models `Date.now()`). -/
def resetCounters (s : DetectorState) (now : ℚ) : DetectorState :=
  { s with pvcCount := 0
           pvcEvents := []
           inferredPvcEvents := []
           totalDetectedBeats := 0
           startTime := now }

/-- `reset`: the full reset back into Learning mode. -/
def resetDetector (s : DetectorState) : DetectorState :=
  { s with ecgBuffer := []
           timeBuffer := []
           rPeaks := []
           rPeakAmplitudes := []
           qrsWidths := []
           normalTemplates := []
           rrHistory := []
           pvcCount := 0
           pvcEvents := []
           inferredPvcEvents := []
           startTime := 0
           totalDetectedBeats := 0
           isLearningMode := true
           learningBeatCount := 0
           learningBeats := []
           trainingResult := none }

/-- One sample-level step, dropping the returned snapshot. -/
def stepSample (s : DetectorState) (sample : ℚ × ℚ) : DetectorState :=
  (processECGSample s sample.1 sample.2).1

/-- Feed a whole list of `(amplitude, timestamp)` samples. -/
def runSamples (s : DetectorState) (samples : List (ℚ × ℚ)) : DetectorState :=
  samples.foldl stepSample s

/-- Feed a list of peaks (with their data windows) through `processPeak`,
using each peak's own timestamp as the `Date.now()` model. -/
def runPeaks (s : DetectorState) (peaks : List (Peak × List ℚ)) : DetectorState :=
  peaks.foldl (fun st p => processPeak st p.1 p.2 p.1.time) s

/-! ## BeatHistoryManager (utils/BeatHistory.ts) -/

/-- `BeatRecord`. -/
structure BeatRecord where
  timestamp : ℚ
  isPVC : Bool
  confidence : ℚ
deriving DecidableEq, Inhabited

/-- `BeatHistoryManager.addBeat`: append, then keep only the last 2 hours
relative to the added record's timestamp. -/
def addBeat (beats : List BeatRecord) (timestamp : ℚ) (isPVC : Bool)
    (confidence : ℚ) : List BeatRecord :=
  (beats ++ [({ timestamp := timestamp, isPVC := isPVC, confidence := confidence } : BeatRecord)]).filter
    (fun beat => decide (beat.timestamp ≥ timestamp - 2 * 60 * 60 * 1000))

/-! ## Concrete evaluation inputs

Small synthetic waveforms and states used to instantiate the theorems
below on concrete data.  A "spike" waveform is 21 samples, zero except a
single deflection at index 10; its normalised form is the shared
morphology of every concrete beat, so all correlations evaluate to
exactly 1 and every `ratSqrt` argument is a perfect square. -/

/-- A 21-sample waveform: zero except amplitude `a` at index 10. -/
def spikeData (a : ℚ) : List ℚ := (List.range 21).map (fun i => if i = 10 then a else 0)

/-- The normalised spike waveform (unit peak). -/
def spikeTemplate : List ℚ := (List.range 21).map (fun i => if i = 10 then 1 else 0)

/-- A Detecting-mode state as left behind by a learning phase over eight
beats 840 ms apart (spike-shaped, amplitude 400): eight retained peaks,
seven seeded trusted RR values, one stored normal template. -/
def detectingState8 : DetectorState :=
  { ecgBuffer := []
    timeBuffer := []
    rPeaks := [0, 840, 1680, 2520, 3360, 4200, 5040, 5880]
    rPeakAmplitudes := [400, 400, 400, 400, 400, 400, 400, 400]
    qrsWidths := [200/13, 200/13, 200/13, 200/13, 200/13, 200/13, 200/13, 200/13]
    normalTemplates := [spikeTemplate]
    rrHistory := [840, 840, 840, 840, 840, 840, 840]
    pvcCount := 0
    pvcEvents := []
    inferredPvcEvents := []
    startTime := 0
    totalDetectedBeats := 8
    isLearningMode := false
    learningBeatCount := 8
    maxLearningBeats := 8
    learningBeats := []
    trainingResult := none
    samplingRate := 130 }

/-- C2 run: a ninth beat 700 ms after the last one, amplitude 900 —
classified as a PVC via the high-amplitude pathway. -/
def c2run : DetectorState := processPeak detectingState8 ⟨6580, 10, 900⟩ (spikeData 900) 6580

/-- C3 run: a normal beat after a 1300 ms pause, then a beat only 650 ms
later (fires the compensatory-pause branch), then a normal 840 ms beat. -/
def c3run : DetectorState := runPeaks detectingState8
  [(⟨7180, 10, 400⟩, spikeData 400),
   (⟨7830, 10, 400⟩, spikeData 400),
   (⟨8670, 10, 400⟩, spikeData 400)]

/-- The C3 claim's tag for a verdict produced by the compensatory-pause
branch: pathway `premature-morph` with confidence 0.6 or 0.75 (the other
`premature-morph` branch always reports 0.7). -/
def compensatoryTagged (e : PVCEvent) : Prop :=
  e.detectionPathway = DetectionPathway.prematureMorph ∧
    (e.confidence = 3/5 ∨ e.confidence = 3/4)

/-- The C3 claim, read on a run's final state: every compensatory-tagged
event is followed (by the next retained beat after it) at a distance
exceeding 1.25 × its expected RR. -/
def nextRRExceedsClaim (s : DetectorState) : Prop :=
  ∀ e ∈ s.pvcEvents, compensatoryTagged e →
    ∃ t ∈ s.rPeaks, e.timestamp < t ∧ (∀ u ∈ s.rPeaks, e.timestamp < u → t ≤ u) ∧
      t - e.timestamp > e.expectedRR * (125/100)

/-- C5 witness state: ten retained beats, the last RR interval 1600 ms
against a trusted median of 840 ms. -/
def gapState10 : DetectorState :=
  { detectingState8 with
    rPeaks := [0, 840, 1680, 2520, 3360, 4200, 5040, 5880, 6720, 8320]
    rPeakAmplitudes := [400, 400, 400, 400, 400, 400, 400, 400, 400, 400]
    qrsWidths := [200/13, 200/13, 200/13, 200/13, 200/13, 200/13, 200/13, 200/13, 200/13, 200/13]
    rrHistory := [840, 840, 840, 840, 840, 840, 840, 840]
    totalDetectedBeats := 10 }

/-- C8 witness batch: three identical spike beats. -/
def identicalBatch3 : List LearningBeat :=
  [{ data := spikeData 400, index := 10, amplitude := 400, qrsWidth := 80 },
   { data := spikeData 400, index := 10, amplitude := 400, qrsWidth := 80 },
   { data := spikeData 400, index := 10, amplitude := 400, qrsWidth := 80 }]

/-- C6 counterexample samples: 131 samples at 140 ms apart, one spike at
index 60 (detected as a beat at t = 8400 by the pass at buffer length
130), and a final sample whose timestamp jumps 130 000 ms ahead. -/
def c6samples : List (ℚ × ℚ) := (List.range 131).map (fun i =>
  ((if i = 60 then (400 : ℚ) else 0), if i ≤ 129 then (140 * i : ℚ) else 140 * i + 130000))

/-- Checkpoint state of the C6 run after `k ≤ 129` samples (no detection
pass has fired yet at these lengths). -/
def c6chk (k : Nat) : DetectorState :=
  { ecgBuffer := (List.range k).map (fun i => if i = 60 then (400 : ℚ) else 0)
    timeBuffer := (List.range k).map (fun i => (140 * i : ℚ))
    rPeaks := []
    rPeakAmplitudes := []
    qrsWidths := []
    normalTemplates := []
    rrHistory := []
    pvcCount := 0
    pvcEvents := []
    inferredPvcEvents := []
    startTime := 1
    totalDetectedBeats := 0
    isLearningMode := true
    learningBeatCount := 0
    maxLearningBeats := 40
    learningBeats := []
    trainingResult := none
    samplingRate := 130 }

/-- A small Learning-mode state with nonzero internal counters (used to
instantiate the learning-mode masking and state-machine theorems). -/
def learningState : DetectorState :=
  { ecgBuffer := [5, 5, 5]
    timeBuffer := [0, 10, 20]
    rPeaks := [0, 800, 1600, 2400]
    rPeakAmplitudes := [400, 400, 400, 400]
    qrsWidths := [80, 80, 80, 80]
    normalTemplates := []
    rrHistory := [800, 800, 800, 800]
    pvcCount := 5
    pvcEvents := []
    inferredPvcEvents := []
    startTime := 1
    totalDetectedBeats := 7
    isLearningMode := true
    learningBeatCount := 4
    maxLearningBeats := 40
    learningBeats := []
    trainingResult := none
    samplingRate := 130 }

/-! ## Helper lemmas -/

theorem jsInsertBy_length (lt : α → α → Bool) (x : α) (l : List α) :
    (jsInsertBy lt x l).length = l.length + 1 := by
  induction l with
  | nil => rfl
  | cons y ys ih =>
      unfold jsInsertBy
      by_cases h : lt x y = true
      · simp [h]
      · simp [h, ih]

theorem jsInsertBy_mem (lt : α → α → Bool) (x a : α) (l : List α) :
    a ∈ jsInsertBy lt x l ↔ a = x ∨ a ∈ l := by
  induction l with
  | nil => simp [jsInsertBy]
  | cons y ys ih =>
      unfold jsInsertBy
      by_cases h : lt x y = true
      · simp only [if_pos h, List.mem_cons]
      · simp only [if_neg h, List.mem_cons, ih]
        tauto

theorem jsSortBy_length (lt : α → α → Bool) (l : List α) :
    (jsSortBy lt l).length = l.length := by
  suffices h : ∀ acc : List α, (l.foldl (fun acc x => jsInsertBy lt x acc) acc).length
      = l.length + acc.length by
    simpa using h []
  induction l with
  | nil => intro acc; simp
  | cons y ys ih =>
      intro acc
      simp only [List.foldl_cons, List.length_cons]
      rw [ih, jsInsertBy_length]
      omega

theorem jsSortBy_mem (lt : α → α → Bool) (a : α) (l : List α) :
    a ∈ jsSortBy lt l ↔ a ∈ l := by
  suffices h : ∀ acc : List α, (a ∈ l.foldl (fun acc x => jsInsertBy lt x acc) acc)
      ↔ a ∈ l ∨ a ∈ acc by
    simpa using h []
  induction l with
  | nil => intro acc; simp
  | cons y ys ih =>
      intro acc
      simp only [List.foldl_cons, List.mem_cons]
      rw [ih, jsInsertBy_mem]
      tauto

theorem jsSortAsc_length (l : List ℚ) : (jsSortAsc l).length = l.length :=
  jsSortBy_length _ l

theorem jsSortAsc_mem (a : ℚ) (l : List ℚ) : a ∈ jsSortAsc l ↔ a ∈ l :=
  jsSortBy_mem _ a l

theorem getD_mem_of_lt {l : List ℚ} {i : Nat} (h : i < l.length) : l.getD i 0 ∈ l := by
  rw [List.getD_eq_getElem l 0 h]
  exact List.getElem_mem h

theorem jsSliceNeg_length (n : Nat) (l : List α) :
    (jsSliceNeg n l).length = l.length - (l.length - n) := by
  simp [jsSliceNeg]

theorem runSamples_append (s : DetectorState) (l1 l2 : List (ℚ × ℚ)) :
    runSamples s (l1 ++ l2) = runSamples (runSamples s l1) l2 := by
  simp [runSamples, List.foldl_append]

/-- The median selected by `gapMedian` is one of the qualifying values. -/
theorem gapMedian_mem {h : List ℚ} (hq : 5 ≤ (gapNormalRRs h).length) :
    gapMedian h ∈ gapNormalRRs h := by
  unfold gapMedian
  rw [← jsSortAsc_mem]
  apply getD_mem_of_lt
  rw [jsSortAsc_length]
  omega

/-- Fields untouched by `cleanOldData`. -/
theorem cleanOldData_untouched (s : DetectorState) (c : ℚ) :
    (cleanOldData s c).isLearningMode = s.isLearningMode ∧
    (cleanOldData s c).learningBeatCount = s.learningBeatCount ∧
    (cleanOldData s c).maxLearningBeats = s.maxLearningBeats ∧
    (cleanOldData s c).normalTemplates = s.normalTemplates ∧
    (cleanOldData s c).ecgBuffer = s.ecgBuffer ∧
    (cleanOldData s c).timeBuffer = s.timeBuffer ∧
    (cleanOldData s c).rrHistory = s.rrHistory ∧
    (cleanOldData s c).samplingRate = s.samplingRate ∧
    (cleanOldData s c).learningBeats = s.learningBeats ∧
    (cleanOldData s c).trainingResult = s.trainingResult := by
  simp only [cleanOldData]
  split <;> simp

/-- Fields untouched by `updateRRHistory` (everything except `rrHistory`). -/
theorem updateRRHistory_untouched (s : DetectorState) :
    (updateRRHistory s).isLearningMode = s.isLearningMode ∧
    (updateRRHistory s).learningBeatCount = s.learningBeatCount ∧
    (updateRRHistory s).maxLearningBeats = s.maxLearningBeats ∧
    (updateRRHistory s).normalTemplates = s.normalTemplates ∧
    (updateRRHistory s).rPeaks = s.rPeaks ∧
    (updateRRHistory s).rPeakAmplitudes = s.rPeakAmplitudes ∧
    (updateRRHistory s).qrsWidths = s.qrsWidths ∧
    (updateRRHistory s).ecgBuffer = s.ecgBuffer ∧
    (updateRRHistory s).timeBuffer = s.timeBuffer := by
  simp only [updateRRHistory]
  split <;> [simp; skip]
  split <;> simp

/-- Fields untouched by `storeNormalTemplate` (everything except the
template list), and boundedness of the stored template list. -/
theorem storeNormalTemplate_untouched (s : DetectorState) (data : List ℚ) (i : Nat) :
    (storeNormalTemplate s data i).isLearningMode = s.isLearningMode ∧
    (storeNormalTemplate s data i).learningBeatCount = s.learningBeatCount ∧
    (storeNormalTemplate s data i).maxLearningBeats = s.maxLearningBeats ∧
    (storeNormalTemplate s data i).rPeaks = s.rPeaks ∧
    (storeNormalTemplate s data i).rPeakAmplitudes = s.rPeakAmplitudes ∧
    (storeNormalTemplate s data i).qrsWidths = s.qrsWidths ∧
    (storeNormalTemplate s data i).ecgBuffer = s.ecgBuffer ∧
    (storeNormalTemplate s data i).timeBuffer = s.timeBuffer := by
  simp only [storeNormalTemplate]
  split <;> simp

/-- `storeNormalTemplate` keeps the template list within the 12-entry cap. -/
theorem storeNormalTemplate_bound (s : DetectorState) (data : List ℚ) (i : Nat)
    (h : s.normalTemplates.length ≤ 12) :
    (storeNormalTemplate s data i).normalTemplates.length ≤ 12 := by
  simp only [storeNormalTemplate]
  split
  · exact h
  · split
    · simp only [jsSliceNeg_length, List.length_append, List.length_cons, List.length_nil]
      omega
    · dsimp only at *
      omega

/-- Fields untouched by `detectGapBasedPVCs` (everything except the
inferred-event list and the PVC counter). -/
theorem detectGapBasedPVCs_untouched (s : DetectorState) (now : ℚ) :
    (detectGapBasedPVCs s now).isLearningMode = s.isLearningMode ∧
    (detectGapBasedPVCs s now).learningBeatCount = s.learningBeatCount ∧
    (detectGapBasedPVCs s now).maxLearningBeats = s.maxLearningBeats ∧
    (detectGapBasedPVCs s now).normalTemplates = s.normalTemplates ∧
    (detectGapBasedPVCs s now).rPeaks = s.rPeaks ∧
    (detectGapBasedPVCs s now).rPeakAmplitudes = s.rPeakAmplitudes ∧
    (detectGapBasedPVCs s now).qrsWidths = s.qrsWidths ∧
    (detectGapBasedPVCs s now).ecgBuffer = s.ecgBuffer ∧
    (detectGapBasedPVCs s now).timeBuffer = s.timeBuffer ∧
    (detectGapBasedPVCs s now).rrHistory = s.rrHistory ∧
    (detectGapBasedPVCs s now).pvcEvents = s.pvcEvents := by
  simp only [detectGapBasedPVCs]
  split
  · simp
  · split
    · simp
    · split
      · simp
      · split
        · simp
        · split
          · split
            · simp
            · simp
          · simp

theorem generateTemplates_length_le (c : MorphologyCluster) :
    (generateTemplatesFromCluster c).length ≤ 6 := by
  simp only [generateTemplatesFromCluster, List.length_cons, List.length_map]
  have h := List.length_take_le 5 (jsSortBy (fun a b => decide (b.2 < a.2))
    (c.beats.map (fun beat => (beat, calculateCorrelation beat.normalizedMorphology c.centroid))))
  omega

theorem trainFromBeats_templates_le (b : List LearningBeat) (r : ℚ) :
    (trainFromBeats b r).normalTemplates.length ≤ 6 := by
  simp only [trainFromBeats]
  split
  · simp
  · exact generateTemplates_length_le _

theorem finalizeLearning_fields (s : DetectorState) (now : ℚ) :
    (finalizeLearning s now).isLearningMode = false ∧
    (finalizeLearning s now).learningBeatCount = s.learningBeatCount ∧
    (finalizeLearning s now).maxLearningBeats = s.maxLearningBeats ∧
    (finalizeLearning s now).rPeaks = s.rPeaks ∧
    (finalizeLearning s now).rPeakAmplitudes = s.rPeakAmplitudes ∧
    (finalizeLearning s now).qrsWidths = s.qrsWidths ∧
    (finalizeLearning s now).ecgBuffer = s.ecgBuffer ∧
    (finalizeLearning s now).timeBuffer = s.timeBuffer ∧
    (finalizeLearning s now).normalTemplates.length ≤ 6 := by
  simp only [finalizeLearning, updateRRHistoryFromLearning]
  split <;> simp <;> split <;> simp [trainFromBeats_templates_le]

theorem handleLearningMode_fields (s : DetectorState) (pt : Peak) (data : List ℚ)
    (q now : ℚ) :
    (handleLearningMode s pt data q now).learningBeatCount = s.learningBeatCount + 1 ∧
    (handleLearningMode s pt data q now).maxLearningBeats = s.maxLearningBeats ∧
    (handleLearningMode s pt data q now).rPeaks = s.rPeaks ∧
    (handleLearningMode s pt data q now).rPeakAmplitudes = s.rPeakAmplitudes ∧
    (handleLearningMode s pt data q now).qrsWidths = s.qrsWidths ∧
    (handleLearningMode s pt data q now).ecgBuffer = s.ecgBuffer ∧
    (handleLearningMode s pt data q now).timeBuffer = s.timeBuffer ∧
    ((handleLearningMode s pt data q now).normalTemplates = s.normalTemplates ∨
      (handleLearningMode s pt data q now).normalTemplates.length ≤ 6) := by
  simp only [handleLearningMode]
  split
  case isTrue h =>
    have hf := finalizeLearning_fields
      { s with learningBeatCount := s.learningBeatCount + 1
               learningBeats := s.learningBeats ++
                 [{ data := data, index := pt.index, amplitude := pt.amplitude, qrsWidth := q }] } now
    exact ⟨hf.2.1, hf.2.2.1, hf.2.2.2.1, hf.2.2.2.2.1, hf.2.2.2.2.2.1,
      hf.2.2.2.2.2.2.1, hf.2.2.2.2.2.2.2.1, Or.inr hf.2.2.2.2.2.2.2.2⟩
  case isFalse h =>
    exact ⟨rfl, rfl, rfl, rfl, rfl, rfl, rfl, Or.inl rfl⟩

theorem handleLearningMode_mode (s : DetectorState) (pt : Peak) (data : List ℚ)
    (q now : ℚ) :
    (handleLearningMode s pt data q now).isLearningMode =
      if s.maxLearningBeats ≤ s.learningBeatCount + 1 then false else s.isLearningMode := by
  simp only [handleLearningMode]
  split
  case isTrue h => exact (finalizeLearning_fields _ _).1
  case isFalse h => rfl

@[simp] theorem cleanOldData_isLearningMode (s : DetectorState) (c : ℚ) :
    (cleanOldData s c).isLearningMode = s.isLearningMode := (cleanOldData_untouched s c).1

@[simp] theorem cleanOldData_learningBeatCount (s : DetectorState) (c : ℚ) :
    (cleanOldData s c).learningBeatCount = s.learningBeatCount := (cleanOldData_untouched s c).2.1

@[simp] theorem cleanOldData_maxLearningBeats (s : DetectorState) (c : ℚ) :
    (cleanOldData s c).maxLearningBeats = s.maxLearningBeats := (cleanOldData_untouched s c).2.2.1

@[simp] theorem cleanOldData_normalTemplates (s : DetectorState) (c : ℚ) :
    (cleanOldData s c).normalTemplates = s.normalTemplates := (cleanOldData_untouched s c).2.2.2.1

@[simp] theorem cleanOldData_ecgBuffer (s : DetectorState) (c : ℚ) :
    (cleanOldData s c).ecgBuffer = s.ecgBuffer := (cleanOldData_untouched s c).2.2.2.2.1

@[simp] theorem cleanOldData_timeBuffer (s : DetectorState) (c : ℚ) :
    (cleanOldData s c).timeBuffer = s.timeBuffer := (cleanOldData_untouched s c).2.2.2.2.2.1

@[simp] theorem cleanOldData_rrHistory (s : DetectorState) (c : ℚ) :
    (cleanOldData s c).rrHistory = s.rrHistory := (cleanOldData_untouched s c).2.2.2.2.2.2.1

@[simp] theorem cleanOldData_samplingRate (s : DetectorState) (c : ℚ) :
    (cleanOldData s c).samplingRate = s.samplingRate := (cleanOldData_untouched s c).2.2.2.2.2.2.2.1

@[simp] theorem cleanOldData_learningBeats (s : DetectorState) (c : ℚ) :
    (cleanOldData s c).learningBeats = s.learningBeats := (cleanOldData_untouched s c).2.2.2.2.2.2.2.2.1

@[simp] theorem cleanOldData_trainingResult (s : DetectorState) (c : ℚ) :
    (cleanOldData s c).trainingResult = s.trainingResult := (cleanOldData_untouched s c).2.2.2.2.2.2.2.2.2

@[simp] theorem updateRRHistory_isLearningMode (s : DetectorState) :
    (updateRRHistory s).isLearningMode = s.isLearningMode := (updateRRHistory_untouched s).1

@[simp] theorem updateRRHistory_learningBeatCount (s : DetectorState) :
    (updateRRHistory s).learningBeatCount = s.learningBeatCount := (updateRRHistory_untouched s).2.1

@[simp] theorem updateRRHistory_maxLearningBeats (s : DetectorState) :
    (updateRRHistory s).maxLearningBeats = s.maxLearningBeats := (updateRRHistory_untouched s).2.2.1

@[simp] theorem updateRRHistory_normalTemplates (s : DetectorState) :
    (updateRRHistory s).normalTemplates = s.normalTemplates := (updateRRHistory_untouched s).2.2.2.1

@[simp] theorem updateRRHistory_rPeaks (s : DetectorState) :
    (updateRRHistory s).rPeaks = s.rPeaks := (updateRRHistory_untouched s).2.2.2.2.1

@[simp] theorem updateRRHistory_rPeakAmplitudes (s : DetectorState) :
    (updateRRHistory s).rPeakAmplitudes = s.rPeakAmplitudes := (updateRRHistory_untouched s).2.2.2.2.2.1

@[simp] theorem updateRRHistory_qrsWidths (s : DetectorState) :
    (updateRRHistory s).qrsWidths = s.qrsWidths := (updateRRHistory_untouched s).2.2.2.2.2.2.1

@[simp] theorem updateRRHistory_ecgBuffer (s : DetectorState) :
    (updateRRHistory s).ecgBuffer = s.ecgBuffer := (updateRRHistory_untouched s).2.2.2.2.2.2.2.1

@[simp] theorem updateRRHistory_timeBuffer (s : DetectorState) :
    (updateRRHistory s).timeBuffer = s.timeBuffer := (updateRRHistory_untouched s).2.2.2.2.2.2.2.2

@[simp] theorem storeNormalTemplate_isLearningMode (s : DetectorState) (data : List ℚ) (i : Nat) :
    (storeNormalTemplate s data i).isLearningMode = s.isLearningMode := (storeNormalTemplate_untouched s data i).1

@[simp] theorem storeNormalTemplate_learningBeatCount (s : DetectorState) (data : List ℚ) (i : Nat) :
    (storeNormalTemplate s data i).learningBeatCount = s.learningBeatCount := (storeNormalTemplate_untouched s data i).2.1

@[simp] theorem storeNormalTemplate_maxLearningBeats (s : DetectorState) (data : List ℚ) (i : Nat) :
    (storeNormalTemplate s data i).maxLearningBeats = s.maxLearningBeats := (storeNormalTemplate_untouched s data i).2.2.1

@[simp] theorem storeNormalTemplate_rPeaks (s : DetectorState) (data : List ℚ) (i : Nat) :
    (storeNormalTemplate s data i).rPeaks = s.rPeaks := (storeNormalTemplate_untouched s data i).2.2.2.1

@[simp] theorem storeNormalTemplate_rPeakAmplitudes (s : DetectorState) (data : List ℚ) (i : Nat) :
    (storeNormalTemplate s data i).rPeakAmplitudes = s.rPeakAmplitudes := (storeNormalTemplate_untouched s data i).2.2.2.2.1

@[simp] theorem storeNormalTemplate_qrsWidths (s : DetectorState) (data : List ℚ) (i : Nat) :
    (storeNormalTemplate s data i).qrsWidths = s.qrsWidths := (storeNormalTemplate_untouched s data i).2.2.2.2.2.1

@[simp] theorem storeNormalTemplate_ecgBuffer (s : DetectorState) (data : List ℚ) (i : Nat) :
    (storeNormalTemplate s data i).ecgBuffer = s.ecgBuffer := (storeNormalTemplate_untouched s data i).2.2.2.2.2.2.1

@[simp] theorem storeNormalTemplate_timeBuffer (s : DetectorState) (data : List ℚ) (i : Nat) :
    (storeNormalTemplate s data i).timeBuffer = s.timeBuffer := (storeNormalTemplate_untouched s data i).2.2.2.2.2.2.2

@[simp] theorem detectGapBasedPVCs_isLearningMode (s : DetectorState) (now : ℚ) :
    (detectGapBasedPVCs s now).isLearningMode = s.isLearningMode := (detectGapBasedPVCs_untouched s now).1

@[simp] theorem detectGapBasedPVCs_learningBeatCount (s : DetectorState) (now : ℚ) :
    (detectGapBasedPVCs s now).learningBeatCount = s.learningBeatCount := (detectGapBasedPVCs_untouched s now).2.1

@[simp] theorem detectGapBasedPVCs_maxLearningBeats (s : DetectorState) (now : ℚ) :
    (detectGapBasedPVCs s now).maxLearningBeats = s.maxLearningBeats := (detectGapBasedPVCs_untouched s now).2.2.1

@[simp] theorem detectGapBasedPVCs_normalTemplates (s : DetectorState) (now : ℚ) :
    (detectGapBasedPVCs s now).normalTemplates = s.normalTemplates := (detectGapBasedPVCs_untouched s now).2.2.2.1

@[simp] theorem detectGapBasedPVCs_rPeaks (s : DetectorState) (now : ℚ) :
    (detectGapBasedPVCs s now).rPeaks = s.rPeaks := (detectGapBasedPVCs_untouched s now).2.2.2.2.1

@[simp] theorem detectGapBasedPVCs_rPeakAmplitudes (s : DetectorState) (now : ℚ) :
    (detectGapBasedPVCs s now).rPeakAmplitudes = s.rPeakAmplitudes := (detectGapBasedPVCs_untouched s now).2.2.2.2.2.1

@[simp] theorem detectGapBasedPVCs_qrsWidths (s : DetectorState) (now : ℚ) :
    (detectGapBasedPVCs s now).qrsWidths = s.qrsWidths := (detectGapBasedPVCs_untouched s now).2.2.2.2.2.2.1

@[simp] theorem detectGapBasedPVCs_ecgBuffer (s : DetectorState) (now : ℚ) :
    (detectGapBasedPVCs s now).ecgBuffer = s.ecgBuffer := (detectGapBasedPVCs_untouched s now).2.2.2.2.2.2.2.1

@[simp] theorem detectGapBasedPVCs_timeBuffer (s : DetectorState) (now : ℚ) :
    (detectGapBasedPVCs s now).timeBuffer = s.timeBuffer := (detectGapBasedPVCs_untouched s now).2.2.2.2.2.2.2.2.1

@[simp] theorem detectGapBasedPVCs_rrHistory (s : DetectorState) (now : ℚ) :
    (detectGapBasedPVCs s now).rrHistory = s.rrHistory := (detectGapBasedPVCs_untouched s now).2.2.2.2.2.2.2.2.2.1

@[simp] theorem detectGapBasedPVCs_pvcEvents (s : DetectorState) (now : ℚ) :
    (detectGapBasedPVCs s now).pvcEvents = s.pvcEvents := (detectGapBasedPVCs_untouched s now).2.2.2.2.2.2.2.2.2.2

@[simp] theorem finalizeLearning_isLearningMode (s : DetectorState) (now : ℚ) :
    (finalizeLearning s now).isLearningMode = false := (finalizeLearning_fields s now).1

@[simp] theorem finalizeLearning_learningBeatCount (s : DetectorState) (now : ℚ) :
    (finalizeLearning s now).learningBeatCount = s.learningBeatCount := (finalizeLearning_fields s now).2.1

@[simp] theorem finalizeLearning_maxLearningBeats (s : DetectorState) (now : ℚ) :
    (finalizeLearning s now).maxLearningBeats = s.maxLearningBeats := (finalizeLearning_fields s now).2.2.1

@[simp] theorem finalizeLearning_rPeaks (s : DetectorState) (now : ℚ) :
    (finalizeLearning s now).rPeaks = s.rPeaks := (finalizeLearning_fields s now).2.2.2.1

@[simp] theorem finalizeLearning_rPeakAmplitudes (s : DetectorState) (now : ℚ) :
    (finalizeLearning s now).rPeakAmplitudes = s.rPeakAmplitudes := (finalizeLearning_fields s now).2.2.2.2.1

@[simp] theorem finalizeLearning_qrsWidths (s : DetectorState) (now : ℚ) :
    (finalizeLearning s now).qrsWidths = s.qrsWidths := (finalizeLearning_fields s now).2.2.2.2.2.1

@[simp] theorem finalizeLearning_ecgBuffer (s : DetectorState) (now : ℚ) :
    (finalizeLearning s now).ecgBuffer = s.ecgBuffer := (finalizeLearning_fields s now).2.2.2.2.2.2.1

@[simp] theorem finalizeLearning_timeBuffer (s : DetectorState) (now : ℚ) :
    (finalizeLearning s now).timeBuffer = s.timeBuffer := (finalizeLearning_fields s now).2.2.2.2.2.2.2.1

theorem finalizeLearning_templates_le (s : DetectorState) (now : ℚ) :
    (finalizeLearning s now).normalTemplates.length ≤ 6 :=
  (finalizeLearning_fields s now).2.2.2.2.2.2.2.2

@[simp] theorem handleLearningMode_learningBeatCount (s : DetectorState) (pt : Peak) (data : List ℚ) (q now : ℚ) :
    (handleLearningMode s pt data q now).learningBeatCount = s.learningBeatCount + 1 := (handleLearningMode_fields s pt data q now).1

@[simp] theorem handleLearningMode_maxLearningBeats (s : DetectorState) (pt : Peak) (data : List ℚ) (q now : ℚ) :
    (handleLearningMode s pt data q now).maxLearningBeats = s.maxLearningBeats := (handleLearningMode_fields s pt data q now).2.1

@[simp] theorem handleLearningMode_rPeaks (s : DetectorState) (pt : Peak) (data : List ℚ) (q now : ℚ) :
    (handleLearningMode s pt data q now).rPeaks = s.rPeaks := (handleLearningMode_fields s pt data q now).2.2.1

@[simp] theorem handleLearningMode_rPeakAmplitudes (s : DetectorState) (pt : Peak) (data : List ℚ) (q now : ℚ) :
    (handleLearningMode s pt data q now).rPeakAmplitudes = s.rPeakAmplitudes := (handleLearningMode_fields s pt data q now).2.2.2.1

@[simp] theorem handleLearningMode_qrsWidths (s : DetectorState) (pt : Peak) (data : List ℚ) (q now : ℚ) :
    (handleLearningMode s pt data q now).qrsWidths = s.qrsWidths := (handleLearningMode_fields s pt data q now).2.2.2.2.1

@[simp] theorem handleLearningMode_ecgBuffer (s : DetectorState) (pt : Peak) (data : List ℚ) (q now : ℚ) :
    (handleLearningMode s pt data q now).ecgBuffer = s.ecgBuffer := (handleLearningMode_fields s pt data q now).2.2.2.2.2.1

@[simp] theorem handleLearningMode_timeBuffer (s : DetectorState) (pt : Peak) (data : List ℚ) (q now : ℚ) :
    (handleLearningMode s pt data q now).timeBuffer = s.timeBuffer := (handleLearningMode_fields s pt data q now).2.2.2.2.2.2.1

theorem handleLearningMode_templates (s : DetectorState) (pt : Peak) (data : List ℚ) (q now : ℚ) :
    (handleLearningMode s pt data q now).normalTemplates = s.normalTemplates ∨
      (handleLearningMode s pt data q now).normalTemplates.length ≤ 6 :=
  (handleLearningMode_fields s pt data q now).2.2.2.2.2.2.2


theorem processPeak_maxLearningBeats (s : DetectorState) (pt : Peak) (data : List ℚ) (now : ℚ) :
    (processPeak s pt data now).maxLearningBeats = s.maxLearningBeats := by
  simp only [processPeak]
  repeat' split
  all_goals simp

theorem processPeak_ecgBuffer (s : DetectorState) (pt : Peak) (data : List ℚ) (now : ℚ) :
    (processPeak s pt data now).ecgBuffer = s.ecgBuffer := by
  simp only [processPeak]
  repeat' split
  all_goals simp

theorem processPeak_timeBuffer (s : DetectorState) (pt : Peak) (data : List ℚ) (now : ℚ) :
    (processPeak s pt data now).timeBuffer = s.timeBuffer := by
  simp only [processPeak]
  repeat' split
  all_goals simp

theorem processPeak_notLearning (s : DetectorState) (pt : Peak) (data : List ℚ) (now : ℚ)
    (h : s.isLearningMode = false) :
    (processPeak s pt data now).isLearningMode = false ∧
    (processPeak s pt data now).learningBeatCount = s.learningBeatCount := by
  simp only [processPeak]
  repeat' split
  all_goals simp_all

theorem processPeak_learning (s : DetectorState) (pt : Peak) (data : List ℚ) (now : ℚ)
    (h : s.isLearningMode = true) :
    (processPeak s pt data now).learningBeatCount = s.learningBeatCount + 1 ∧
    (processPeak s pt data now).isLearningMode =
      (if s.maxLearningBeats ≤ s.learningBeatCount + 1 then false else true) := by
  simp only [processPeak]
  repeat' split
  all_goals simp_all [handleLearningMode_mode]

theorem handleLearningMode_templates_le (s : DetectorState) (pt : Peak) (data : List ℚ)
    (q now : ℚ) (h : s.normalTemplates.length ≤ 12) :
    (handleLearningMode s pt data q now).normalTemplates.length ≤ 12 := by
  rcases handleLearningMode_templates s pt data q now with h1 | h1
  · rw [h1]; exact h
  · omega

theorem processPeak_templates_le (s : DetectorState) (pt : Peak) (data : List ℚ) (now : ℚ)
    (h : s.normalTemplates.length ≤ 12) :
    (processPeak s pt data now).normalTemplates.length ≤ 12 := by
  simp only [processPeak]
  repeat' split
  all_goals
    first
      | (simp_all; done)
      | (apply handleLearningMode_templates_le; simp_all; done)
      | (apply storeNormalTemplate_bound; simp_all; done)

theorem foldPeaks_notLearning (ps : List Peak) (data : List ℚ) (now : ℚ) :
    ∀ s : DetectorState, s.isLearningMode = false →
      (ps.foldl (fun st p => processPeak st p data now) s).isLearningMode = false := by
  induction ps with
  | nil => exact fun s h => h
  | cons p ps ih =>
      intro s h
      exact ih _ (processPeak_notLearning s p data now h).1

theorem detectBeats_notLearning (s : DetectorState) (now : ℚ)
    (h : s.isLearningMode = false) :
    (detectBeats s now).isLearningMode = false := by
  simp only [detectBeats]
  repeat' split
  all_goals first
    | exact h
    | (rw [detectGapBasedPVCs_isLearningMode]; exact foldPeaks_notLearning _ _ _ s h)
    | exact foldPeaks_notLearning _ _ _ s h

theorem processECGSample_notLearning (s : DetectorState) (a t : ℚ)
    (h : s.isLearningMode = false) :
    (processECGSample s a t).1.isLearningMode = false := by
  simp only [processECGSample]
  repeat' split
  all_goals first
    | (apply detectBeats_notLearning; simp_all; done)
    | simp_all

/-- The mode/counter coupling preserved by every step: while Learning the
count is below the cap, after the (unique) transition it is at the cap. -/
def ModeInv (M : Nat) (s : DetectorState) : Prop :=
  s.maxLearningBeats = M ∧
    ((s.isLearningMode = true ∧ s.learningBeatCount < M) ∨
     (s.isLearningMode = false ∧ M ≤ s.learningBeatCount))

theorem processPeak_modeInv (M : Nat) (s : DetectorState) (pt : Peak) (data : List ℚ)
    (now : ℚ) (h : ModeInv M s) : ModeInv M (processPeak s pt data now) := by
  obtain ⟨hM, hcase⟩ := h
  refine ⟨by rw [processPeak_maxLearningBeats, hM], ?_⟩
  rcases hcase with ⟨hm, hc⟩ | ⟨hm, hc⟩
  · obtain ⟨h1, h2⟩ := processPeak_learning s pt data now hm
    by_cases hcond : s.maxLearningBeats ≤ s.learningBeatCount + 1
    · right
      rw [h1, h2, if_pos hcond]
      exact ⟨rfl, by omega⟩
    · left
      rw [h1, h2, if_neg hcond]
      exact ⟨rfl, by omega⟩
  · obtain ⟨h1, h2⟩ := processPeak_notLearning s pt data now hm
    right
    rw [h1, h2]
    exact ⟨rfl, by omega⟩

theorem foldPeaks_modeInv (M : Nat) (ps : List Peak) (data : List ℚ) (now : ℚ) :
    ∀ s : DetectorState, ModeInv M s →
      ModeInv M (ps.foldl (fun st p => processPeak st p data now) s) := by
  induction ps with
  | nil => exact fun s h => h
  | cons p ps ih =>
      intro s h
      exact ih _ (processPeak_modeInv M s p data now h)

theorem detectGapBasedPVCs_modeInv (M : Nat) (s : DetectorState) (now : ℚ)
    (h : ModeInv M s) : ModeInv M (detectGapBasedPVCs s now) := by
  obtain ⟨hM, hc⟩ := h
  refine ⟨?_, ?_⟩
  · rw [detectGapBasedPVCs_maxLearningBeats, hM]
  · rw [detectGapBasedPVCs_isLearningMode, detectGapBasedPVCs_learningBeatCount]
    exact hc

theorem detectBeats_modeInv (M : Nat) (s : DetectorState) (now : ℚ)
    (h : ModeInv M s) : ModeInv M (detectBeats s now) := by
  simp only [detectBeats]
  repeat' split
  all_goals first
    | exact h
    | exact detectGapBasedPVCs_modeInv M _ now (foldPeaks_modeInv M _ _ now s h)
    | exact foldPeaks_modeInv M _ _ now s h

theorem processECGSample_modeInv (M : Nat) (s : DetectorState) (a t : ℚ)
    (h : ModeInv M s) : ModeInv M (processECGSample s a t).1 := by
  have hbase : ∀ s' : DetectorState, s'.isLearningMode = s.isLearningMode →
      s'.learningBeatCount = s.learningBeatCount →
      s'.maxLearningBeats = s.maxLearningBeats → ModeInv M s' := by
    intro s' h1 h2 h3
    obtain ⟨hM, hc⟩ := h
    exact ⟨by rw [h3, hM], by rw [h1, h2]; exact hc⟩
  simp only [processECGSample]
  repeat' split
  all_goals first
    | (apply detectBeats_modeInv; apply hbase <;> simp_all; done)
    | (apply hbase <;> simp_all; done)

theorem runSamples_notLearning (samples : List (ℚ × ℚ)) :
    ∀ s : DetectorState, s.isLearningMode = false →
      (runSamples s samples).isLearningMode = false := by
  induction samples with
  | nil => exact fun s h => h
  | cons p ps ih =>
      intro s h
      exact ih _ (processECGSample_notLearning s p.1 p.2 h)

theorem getResult_learning (s : DetectorState) (h : s.isLearningMode = true) :
    (getResult s).pvcCount = 0 ∧ (getResult s).totalBeats = 0 ∧
    (getResult s).detectedBeats = 0 ∧ (getResult s).heartRate = 0 ∧
    (getResult s).pvcEvents = [] ∧
    (getResult s).timeSpanMs =
      (if s.timeBuffer.length > 0 then jsLast s.timeBuffer else s.startTime) - s.startTime ∧
    (getResult s).signalQuality = calculateSignalQuality s.ecgBuffer := by
  simp only [getResult, h]
  simp

theorem processECGSample_snd (s : DetectorState) (a t : ℚ) :
    (processECGSample s a t).2 = getResult (processECGSample s a t).1 := by
  simp only [processECGSample]

/-- C10: while the detector remains in Learning mode after a call to
`processECGSample`, the returned snapshot masks the PVC count, beat
counts, heart rate and event list to zero/empty regardless of the
internal counters, while the elapsed time span and the signal quality
are computed as usual. -/
theorem c10_learning_mask (s : DetectorState) (a t : ℚ)
    (h : (processECGSample s a t).1.isLearningMode = true) :
    (processECGSample s a t).2.pvcCount = 0 ∧
    (processECGSample s a t).2.totalBeats = 0 ∧
    (processECGSample s a t).2.detectedBeats = 0 ∧
    (processECGSample s a t).2.heartRate = 0 ∧
    (processECGSample s a t).2.pvcEvents = [] ∧
    (processECGSample s a t).2.timeSpanMs =
      (if (processECGSample s a t).1.timeBuffer.length > 0 then
        jsLast (processECGSample s a t).1.timeBuffer
      else (processECGSample s a t).1.startTime) - (processECGSample s a t).1.startTime ∧
    (processECGSample s a t).2.signalQuality =
      calculateSignalQuality (processECGSample s a t).1.ecgBuffer := by
  rw [processECGSample_snd]
  exact getResult_learning _ h

/-- C10 witness: a concrete Learning-mode state with nonzero internal
counters (pvcCount 5, totalDetectedBeats 7) still reports all-zero
counts and an empty event list. -/
theorem c10_learning_mask_witness :
    (processECGSample learningState 5 100).2.pvcCount = 0 ∧
    (processECGSample learningState 5 100).2.totalBeats = 0 ∧
    (processECGSample learningState 5 100).2.detectedBeats = 0 ∧
    (processECGSample learningState 5 100).2.heartRate = 0 ∧
    (processECGSample learningState 5 100).2.pvcEvents = [] ∧
    (processECGSample learningState 5 100).2.timeSpanMs =
      (if (processECGSample learningState 5 100).1.timeBuffer.length > 0 then
        jsLast (processECGSample learningState 5 100).1.timeBuffer
      else (processECGSample learningState 5 100).1.startTime) -
        (processECGSample learningState 5 100).1.startTime ∧
    (processECGSample learningState 5 100).2.signalQuality =
      calculateSignalQuality (processECGSample learningState 5 100).1.ecgBuffer :=
  c10_learning_mask learningState 5 100 (by decide)

/-- C7: the engine starts in Learning (with the default cap of 40
learning beats), a processing step that starts outside Learning never
re-enters it (and hence no sequence of samples does), while a step that
starts in Learning (count below the cap) leaves Learning exactly when it
brings the learning beat count up to the cap; `reset` re-enters Learning. -/
theorem c7_mode_machine :
    (∀ r t0 : ℚ, (initialState r t0).isLearningMode = true ∧
      (initialState r t0).maxLearningBeats = 40) ∧
    (∀ (s : DetectorState) (a t : ℚ), s.isLearningMode = false →
      (processECGSample s a t).1.isLearningMode = false) ∧
    (∀ (s : DetectorState) (a t : ℚ), s.isLearningMode = true →
      s.learningBeatCount < s.maxLearningBeats →
      ((processECGSample s a t).1.isLearningMode = false ↔
        s.maxLearningBeats ≤ (processECGSample s a t).1.learningBeatCount)) ∧
    (∀ (s : DetectorState) (samples : List (ℚ × ℚ)), s.isLearningMode = false →
      (runSamples s samples).isLearningMode = false) ∧
    (∀ s : DetectorState, (resetDetector s).isLearningMode = true ∧
      (resetDetector s).learningBeatCount = 0) := by
  refine ⟨fun r t0 => ⟨rfl, rfl⟩, fun s a t h => processECGSample_notLearning s a t h,
    ?_, fun s samples h => runSamples_notLearning samples s h, fun s => ⟨rfl, rfl⟩⟩
  intro s a t hm hc
  obtain ⟨hM, hcase⟩ := processECGSample_modeInv s.maxLearningBeats s a t
    ⟨rfl, Or.inl ⟨hm, hc⟩⟩
  constructor
  · intro hfalse
    rcases hcase with ⟨h1, _⟩ | ⟨_, h2⟩
    · rw [h1] at hfalse; cases hfalse
    · exact h2
  · intro hle
    rcases hcase with ⟨_, hlt⟩ | ⟨h2, _⟩
    · omega
    · exact h2

/-- C7 witness: one step from a Detecting-mode state stays in Detecting;
one step from a Learning-mode state with 4 of 40 learning beats satisfies
the transition equivalence (both sides false). -/
theorem c7_mode_machine_witness :
    (processECGSample detectingState8 5 100).1.isLearningMode = false ∧
    ((processECGSample learningState 5 100).1.isLearningMode = false ↔
      learningState.maxLearningBeats ≤ (processECGSample learningState 5 100).1.learningBeatCount) :=
  ⟨c7_mode_machine.2.1 detectingState8 5 100 (by decide),
   c7_mode_machine.2.2.1 learningState 5 100 (by decide) (by decide)⟩

/-- C9: the counters-only reset zeroes the PVC count, both event lists
and the detected-beat count and restarts the time origin, leaving every
other field (templates, trusted RR history, training result, mode,
learning counters, buffers, peak histories) unchanged. -/
theorem c9_reset_counters_frame (s : DetectorState) (now : ℚ) :
    (resetCounters s now).pvcCount = 0 ∧
    (resetCounters s now).pvcEvents = [] ∧
    (resetCounters s now).inferredPvcEvents = [] ∧
    (resetCounters s now).totalDetectedBeats = 0 ∧
    (resetCounters s now).startTime = now ∧
    (resetCounters s now).normalTemplates = s.normalTemplates ∧
    (resetCounters s now).rrHistory = s.rrHistory ∧
    (resetCounters s now).trainingResult = s.trainingResult ∧
    (resetCounters s now).isLearningMode = s.isLearningMode ∧
    (resetCounters s now).learningBeatCount = s.learningBeatCount ∧
    (resetCounters s now).maxLearningBeats = s.maxLearningBeats ∧
    (resetCounters s now).ecgBuffer = s.ecgBuffer ∧
    (resetCounters s now).timeBuffer = s.timeBuffer ∧
    (resetCounters s now).rPeaks = s.rPeaks ∧
    (resetCounters s now).rPeakAmplitudes = s.rPeakAmplitudes ∧
    (resetCounters s now).qrsWidths = s.qrsWidths ∧
    (resetCounters s now).learningBeats = s.learningBeats ∧
    (resetCounters s now).samplingRate = s.samplingRate :=
  ⟨rfl, rfl, rfl, rfl, rfl, rfl, rfl, rfl, rfl, rfl, rfl, rfl, rfl, rfl, rfl, rfl, rfl, rfl⟩

theorem categorizeBurden_iff (b : ℚ) :
    (categorizeBurden b = BurdenCategory.low ↔ b < 1) ∧
    (categorizeBurden b = BurdenCategory.moderate ↔ 1 ≤ b ∧ b < 10) ∧
    (categorizeBurden b = BurdenCategory.high ↔ 10 ≤ b) := by
  unfold categorizeBurden
  by_cases h1 : b < 1
  · refine ⟨by simp [h1], ?_, ?_⟩
    · simp only [if_pos h1]
      constructor
      · intro h; cases h
      · rintro ⟨h, _⟩; linarith
    · simp only [if_pos h1]
      constructor
      · intro h; cases h
      · intro h; linarith
  · by_cases h2 : b < 10
    · refine ⟨?_, ?_, ?_⟩
      · simp only [if_neg h1, if_pos h2]
        constructor
        · intro h; cases h
        · intro h; exact absurd h h1
      · simp only [if_neg h1, if_pos h2, true_iff]
        exact ⟨by linarith, h2⟩
      · simp only [if_neg h1, if_pos h2]
        constructor
        · intro h; cases h
        · intro h; linarith
    · refine ⟨?_, ?_, ?_⟩
      · simp only [if_neg h1, if_neg h2]
        constructor
        · intro h; cases h
        · intro h; exact absurd h h1
      · simp only [if_neg h1, if_neg h2]
        constructor
        · intro h; cases h
        · rintro ⟨_, h⟩; exact absurd h h2
      · simp only [if_neg h1, if_neg h2, true_iff]
        linarith

/-- C4: for non-negative inputs, `calculateBurden` reports the percentage
`pvcCount/detectedBeats·100` rounded to two decimals (0 when there are no
beats); zero PVCs give burden 0 and `pvcCount = detectedBeats > 0` gives
burden 100; and the clinical category is determined by the (unrounded)
percentage with thresholds 1 and 10, so 0.999 % is low, 1.0 % moderate,
9.999 % moderate and 10.0 % high (see the witness). -/
theorem c4_burden (beats pvc timeSpan hr : ℚ) (hb : 0 ≤ beats) (hp : 0 ≤ pvc) :
    (beats > 0 → (calculateBurden beats pvc timeSpan hr).burden =
      (jsRound (pvc / beats * 100 * 100) : ℚ) / 100) ∧
    (beats = 0 → (calculateBurden beats pvc timeSpan hr).burden = 0) ∧
    (pvc = 0 → (calculateBurden beats pvc timeSpan hr).burden = 0) ∧
    (pvc = beats → beats > 0 → (calculateBurden beats pvc timeSpan hr).burden = 100) ∧
    ((calculateBurden beats pvc timeSpan hr).burdenCategory = BurdenCategory.low ↔
      (if beats > 0 then pvc / beats * 100 else 0) < 1) ∧
    ((calculateBurden beats pvc timeSpan hr).burdenCategory = BurdenCategory.moderate ↔
      (1 ≤ (if beats > 0 then pvc / beats * 100 else 0) ∧
        (if beats > 0 then pvc / beats * 100 else 0) < 10)) ∧
    ((calculateBurden beats pvc timeSpan hr).burdenCategory = BurdenCategory.high ↔
      10 ≤ (if beats > 0 then pvc / beats * 100 else 0)) := by
  simp only [calculateBurden, categorizeBurden]
  refine ⟨?_, ?_, ?_, ?_, ?_, ?_, ?_⟩
  · intro h
    rw [if_pos h]
  · intro h
    rw [if_neg (by rw [h]; exact lt_irrefl 0)]
    norm_num [jsRound]
  · intro h
    subst h
    by_cases hb0 : beats > 0
    · rw [if_pos hb0]
      norm_num [jsRound]
    · rw [if_neg hb0]
      norm_num [jsRound]
  · intro h hpos
    subst h
    rw [if_pos hpos, div_self (ne_of_gt hpos)]
    norm_num [jsRound]
  · exact (categorizeBurden_iff _).1
  · exact (categorizeBurden_iff _).2.1
  · exact (categorizeBurden_iff _).2.2

/-- C4 witness: the boundary examples — 0.999 % low, 1.0 % moderate,
9.999 % moderate, 10.0 % high — plus the zero and all-PVC round trips. -/
theorem c4_burden_witness :
    (calculateBurden 100000 999 0 0).burdenCategory = BurdenCategory.low ∧
    (calculateBurden 100000 1000 0 0).burdenCategory = BurdenCategory.moderate ∧
    (calculateBurden 100000 9999 0 0).burdenCategory = BurdenCategory.moderate ∧
    (calculateBurden 100000 10000 0 0).burdenCategory = BurdenCategory.high ∧
    (calculateBurden 8 0 0 0).burden = 0 ∧
    (calculateBurden 8 8 0 0).burden = 100 :=
  ⟨((c4_burden 100000 999 0 0 (by decide) (by decide)).2.2.2.2.1).mpr (by decide),
   ((c4_burden 100000 1000 0 0 (by decide) (by decide)).2.2.2.2.2.1).mpr (by decide),
   ((c4_burden 100000 9999 0 0 (by decide) (by decide)).2.2.2.2.2.1).mpr (by decide),
   ((c4_burden 100000 10000 0 0 (by decide) (by decide)).2.2.2.2.2.2).mpr (by decide),
   (c4_burden 8 0 0 0 (by decide) (by decide)).2.2.1 rfl,
   (c4_burden 8 8 0 0 (by decide) (by decide)).2.2.2.1 rfl (by decide)⟩

/-- C1: for a beat classified with non-empty RR history, `analyzeBeat`
first tests morphology dissimilarity > 0.7 (PVC, confidence
min(0.9, dissimilarity), pathway morphology-only, short-circuiting all
other logic) and otherwise applies, first-true-wins: high-amplitude
(amplitude > 800, or amplitude > 600 and currentRR < 0.80·expectedRR;
confidence 0.9), then wide-qrs (QRS width > 120 and
currentRR < 0.80·expectedRR; confidence 0.8), then premature-morph
(currentRR < 0.70·expectedRR and dissimilarity > 0.12; confidence 0.7),
then the compensatory-pause check (its exact condition is the subject of
C3), else a normal verdict. -/
theorem c1_classifier_pathways (rrHistory data : List ℚ) (peakIndex : Nat)
    (amplitude qrsWidth s cur exp : ℚ) (normalTemplates : List (List ℚ))
    (r : BeatAnalysis) (hne : rrHistory ≠ [])
    (hs : calculateSimpleMorphology data peakIndex normalTemplates = s)
    (hcur : jsLast rrHistory = cur)
    (hexp : expectedRROf rrHistory = exp)
    (hr : analyzeBeat rrHistory data peakIndex amplitude qrsWidth normalTemplates = r) :
    (r.morphologyScore = s ∧ r.currentRR = cur ∧ r.expectedRR = exp) ∧
    (s > 7/10 → r.isPVC = true ∧ r.confidence = min (9/10) s ∧
      r.pathway = DetectionPathway.morphologyOnly) ∧
    (¬ s > 7/10 →
      ((amplitude > 800 ∨ (amplitude > 600 ∧ cur < exp * (80/100))) →
        r.isPVC = true ∧ r.confidence = 9/10 ∧ r.pathway = DetectionPathway.highAmplitude) ∧
      (¬(amplitude > 800 ∨ (amplitude > 600 ∧ cur < exp * (80/100))) →
        (qrsWidth > 120 ∧ cur < exp * (80/100)) →
        r.isPVC = true ∧ r.confidence = 8/10 ∧ r.pathway = DetectionPathway.wideQrs) ∧
      (¬(amplitude > 800 ∨ (amplitude > 600 ∧ cur < exp * (80/100))) →
        ¬(qrsWidth > 120 ∧ cur < exp * (80/100)) →
        (cur < exp * (70/100) ∧ s > 12/100) →
        r.isPVC = true ∧ r.confidence = 7/10 ∧ r.pathway = DetectionPathway.prematureMorph) ∧
      (¬(amplitude > 800 ∨ (amplitude > 600 ∧ cur < exp * (80/100))) →
        ¬(qrsWidth > 120 ∧ cur < exp * (80/100)) →
        ¬(cur < exp * (70/100) ∧ s > 12/100) →
        ((if rrHistory.length > 1 then rrHistory.getD (rrHistory.length - 2) 0 else cur) >
            exp * (125/100) ∧ cur < exp * (85/100)) →
        r.isPVC = true ∧ r.pathway = DetectionPathway.prematureMorph ∧
          r.confidence = (if s > 8/100 then 75/100 else 6/10)) ∧
      (¬(amplitude > 800 ∨ (amplitude > 600 ∧ cur < exp * (80/100))) →
        ¬(qrsWidth > 120 ∧ cur < exp * (80/100)) →
        ¬(cur < exp * (70/100) ∧ s > 12/100) →
        ¬((if rrHistory.length > 1 then rrHistory.getD (rrHistory.length - 2) 0 else cur) >
            exp * (125/100) ∧ cur < exp * (85/100)) →
        r.isPVC = false ∧ r.confidence = 0)) := by
  subst hs hcur hexp hr
  simp only [analyzeBeat]
  rw [if_neg (by simpa using hne)]
  by_cases hm : calculateSimpleMorphology data peakIndex normalTemplates > 7/10
  · rw [if_pos hm]
    exact ⟨⟨rfl, rfl, rfl⟩, fun _ => ⟨rfl, rfl, rfl⟩, fun hc => absurd hm hc⟩
  · rw [if_neg hm]
    refine ⟨?_, fun hc => absurd hc hm, fun _ => ⟨?_, ?_, ?_, ?_, ?_⟩⟩
    · by_cases hp1 : amplitude > 800 ∨ (amplitude > 600 ∧ jsLast rrHistory < expectedRROf rrHistory * (80/100))
      · rw [if_pos hp1]; exact ⟨rfl, rfl, rfl⟩
      · rw [if_neg hp1]
        by_cases hp2 : qrsWidth > 120 ∧ jsLast rrHistory < expectedRROf rrHistory * (80/100)
        · rw [if_pos hp2]; exact ⟨rfl, rfl, rfl⟩
        · rw [if_neg hp2]
          by_cases hp3 : jsLast rrHistory < expectedRROf rrHistory * (70/100) ∧
            calculateSimpleMorphology data peakIndex normalTemplates > 12/100
          · rw [if_pos hp3]; exact ⟨rfl, rfl, rfl⟩
          · rw [if_neg hp3]
            by_cases hp4 : (if rrHistory.length > 1 then rrHistory.getD (rrHistory.length - 2) 0
                else jsLast rrHistory) > expectedRROf rrHistory * (125/100) ∧
                jsLast rrHistory < expectedRROf rrHistory * (85/100)
            · rw [if_pos hp4]; exact ⟨rfl, rfl, rfl⟩
            · rw [if_neg hp4]; exact ⟨rfl, rfl, rfl⟩
    · intro hp1
      rw [if_pos hp1]
      exact ⟨rfl, rfl, rfl⟩
    · intro hp1 hp2
      rw [if_neg hp1, if_pos hp2]
      exact ⟨rfl, rfl, rfl⟩
    · intro hp1 hp2 hp3
      rw [if_neg hp1, if_neg hp2, if_pos hp3]
      exact ⟨rfl, rfl, rfl⟩
    · intro hp1 hp2 hp3 hp4
      rw [if_neg hp1, if_neg hp2, if_neg hp3, if_pos hp4]
      exact ⟨rfl, rfl, rfl⟩
    · intro hp1 hp2 hp3 hp4
      rw [if_neg hp1, if_neg hp2, if_neg hp3, if_neg hp4]
      exact ⟨rfl, rfl⟩

/-- C1 witness: a beat of amplitude 900 with matching morphology (score 0)
and RR history [840] is classified via the high-amplitude pathway with
confidence 0.9. -/
theorem c1_classifier_pathways_witness :
    (analyzeBeat [840] (spikeData 900) 10 900 80 [spikeTemplate]).isPVC = true ∧
    (analyzeBeat [840] (spikeData 900) 10 900 80 [spikeTemplate]).confidence = 9/10 ∧
    (analyzeBeat [840] (spikeData 900) 10 900 80 [spikeTemplate]).pathway =
      DetectionPathway.highAmplitude :=
  ((c1_classifier_pathways [840] (spikeData 900) 10 900 80 0 840 840 [spikeTemplate]
    (analyzeBeat [840] (spikeData 900) 10 900 80 [spikeTemplate])
    (by decide) (by decide) (by decide) (by decide) rfl).2.2 (by decide)).1 (by decide)

/-- C3 counterexample: in the concrete run `c3run` the beat at t = 7830 is
classified as a PVC by the compensatory-pause branch (pathway
premature-morph, confidence 0.6, expected RR 840), yet the RR interval
immediately following that beat is 8670 − 7830 = 840 ms, which does not
exceed 1.25 × 840 = 1050 ms.  The quantity the code actually tests is
`rrHistory[len − 2]`, the trusted interval *preceding* the current one
(here the 1300 ms pause before the premature beat), not the interval
following the current beat — which has not even been observed yet at
classification time. -/
theorem c3_next_rr_counterexample : ¬ nextRRExceedsClaim c3run := by
  simp only [nextRRExceedsClaim, compensatoryTagged]
  decide

/-- C3 amended: when the morphology-only test and pathways 1–3 all fail,
`analyzeBeat` classifies the beat as a PVC exactly when the trusted RR
entry immediately preceding the current RR (the second-to-last history
entry; the current RR itself when the history has a single entry) exceeds
1.25 × expectedRR and the current RR is below 0.85 × expectedRR, with
pathway premature-morph and confidence 0.6, boosted to 0.75 when the
morphology dissimilarity exceeds 0.08. -/
theorem c3_compensatory_amended (rrHistory data : List ℚ) (peakIndex : Nat)
    (amplitude qrsWidth s cur exp prev : ℚ) (normalTemplates : List (List ℚ))
    (r : BeatAnalysis) (hne : rrHistory ≠ [])
    (hs : calculateSimpleMorphology data peakIndex normalTemplates = s)
    (hcur : jsLast rrHistory = cur)
    (hexp : expectedRROf rrHistory = exp)
    (hprev : (if rrHistory.length > 1 then rrHistory.getD (rrHistory.length - 2) 0 else cur) = prev)
    (hr : analyzeBeat rrHistory data peakIndex amplitude qrsWidth normalTemplates = r)
    (hm : ¬ s > 7/10)
    (hp1 : ¬(amplitude > 800 ∨ (amplitude > 600 ∧ cur < exp * (80/100))))
    (hp2 : ¬(qrsWidth > 120 ∧ cur < exp * (80/100)))
    (hp3 : ¬(cur < exp * (70/100) ∧ s > 12/100)) :
    (r.isPVC = true ↔ (prev > exp * (125/100) ∧ cur < exp * (85/100))) ∧
    (r.isPVC = true → r.pathway = DetectionPathway.prematureMorph ∧
      r.confidence = (if s > 8/100 then 75/100 else 6/10)) := by
  subst hs hcur hexp hprev hr
  simp only [analyzeBeat]
  rw [if_neg (by simpa using hne), if_neg hm, if_neg hp1, if_neg hp2, if_neg hp3]
  by_cases hp4 : (if rrHistory.length > 1 then rrHistory.getD (rrHistory.length - 2) 0
      else jsLast rrHistory) > expectedRROf rrHistory * (125/100) ∧
      jsLast rrHistory < expectedRROf rrHistory * (85/100)
  · rw [if_pos hp4]
    exact ⟨⟨fun _ => hp4, fun _ => rfl⟩, fun _ => ⟨rfl, rfl⟩⟩
  · rw [if_neg hp4]
    exact ⟨⟨fun h => Bool.noConfusion h, fun hc => absurd hc hp4⟩,
      fun h => Bool.noConfusion h⟩

/-- C3 amended witness: history [840, 840, 840, 1300, 650] (current RR
650, preceding trusted entry 1300, expected 840) fires the pathway with
confidence 0.6. -/
theorem c3_compensatory_amended_witness :
    (analyzeBeat [840, 840, 840, 1300, 650] (spikeData 400) 10 400 80 [spikeTemplate]).isPVC = true ∧
    (analyzeBeat [840, 840, 840, 1300, 650] (spikeData 400) 10 400 80 [spikeTemplate]).pathway =
      DetectionPathway.prematureMorph ∧
    (analyzeBeat [840, 840, 840, 1300, 650] (spikeData 400) 10 400 80 [spikeTemplate]).confidence =
      6/10 := by
  have h := c3_compensatory_amended [840, 840, 840, 1300, 650] (spikeData 400) 10 400 80
    0 650 840 1300 [spikeTemplate]
    (analyzeBeat [840, 840, 840, 1300, 650] (spikeData 400) 10 400 80 [spikeTemplate])
    (by decide) (by decide) (by decide) (by decide) (by decide) rfl
    (by decide) (by decide) (by decide) (by decide)
  have hp := h.1.mpr (by decide)
  refine ⟨hp, (h.2 hp).1, ?_⟩
  rw [(h.2 hp).2]
  decide

theorem gapMedian_pos {h : List ℚ} (hq : 5 ≤ (gapNormalRRs h).length) :
    500 < gapMedian h := by
  have hm := gapMedian_mem hq
  simp only [gapNormalRRs, List.mem_filter, Bool.and_eq_true, decide_eq_true_eq] at hm
  exact hm.2.1

theorem detectGap_keepAll_noop (s : DetectorState) (now : ℚ)
    (hkeep : ∀ e ∈ s.inferredPvcEvents, now - 120000 ≤ e.timestamp)
    (halready : s.rPeaks.getD (s.rPeaks.length - 1) 0 -
        s.rPeaks.getD (s.rPeaks.length - 1 - 1) 0 > gapMedian s.rrHistory * (18/10) →
      (s.inferredPvcEvents.any (fun pvc =>
        decide (pvc.timestamp > s.rPeaks.getD (s.rPeaks.length - 1 - 1) 0) &&
        decide (pvc.timestamp < s.rPeaks.getD (s.rPeaks.length - 1) 0))) = true) :
    detectGapBasedPVCs s now = s := by
  have hfilter : s.inferredPvcEvents.filter (fun e => decide (e.timestamp ≥ now - 120000)) =
      s.inferredPvcEvents := by
    rw [List.filter_eq_self]
    intro e he
    simpa using hkeep e he
  simp only [detectGapBasedPVCs]
  split
  · rfl
  · split
    · rfl
    · split
      · rfl
      · split
        · rfl
        · split
          · split
            · rename_i hgap hcond
              exact absurd (halready hgap) (by simpa using hcond.2.2)
            · simp only [hfilter]
          · simp only [hfilter]

theorem detectGap_fires (s : DetectorState) (now : ℚ)
    (h6 : ¬ s.rPeaks.length < 6) (h5 : ¬ s.rPeaks.length % 5 ≠ 0)
    (hq : ¬ (gapNormalRRs s.rrHistory).length < 5)
    (hgap : s.rPeaks.getD (s.rPeaks.length - 1) 0 -
      s.rPeaks.getD (s.rPeaks.length - 1 - 1) 0 > gapMedian s.rrHistory * (18/10))
    (hprev : ¬ (s.pvcEvents.any (fun pvc =>
      decide (|pvc.timestamp - s.rPeaks.getD (s.rPeaks.length - 1 - 1) 0| < 200))) = true)
    (hnext : ¬ (s.pvcEvents.any (fun pvc =>
      decide (|pvc.timestamp - s.rPeaks.getD (s.rPeaks.length - 1) 0| < 200))) = true)
    (halready : ¬ (s.inferredPvcEvents.any (fun pvc =>
      decide (pvc.timestamp > s.rPeaks.getD (s.rPeaks.length - 1 - 1) 0) &&
      decide (pvc.timestamp < s.rPeaks.getD (s.rPeaks.length - 1) 0))) = true)
    (hkeep : ∀ e ∈ s.inferredPvcEvents, now - 120000 ≤ e.timestamp)
    (hprevKeep : now - 120000 ≤ s.rPeaks.getD (s.rPeaks.length - 1 - 1) 0) :
    detectGapBasedPVCs s now =
      { s with inferredPvcEvents := s.inferredPvcEvents ++ [gapEventOf s]
               pvcCount := s.pvcCount + 1 } := by
  have hmed : 500 < gapMedian s.rrHistory := gapMedian_pos (by omega)
  have hcurpos : 0 < s.rPeaks.getD (s.rPeaks.length - 1) 0 -
      s.rPeaks.getD (s.rPeaks.length - 1 - 1) 0 := by nlinarith
  have hkeepStep : ∀ e ∈ s.inferredPvcEvents ++ [gapEventOf s],
      (decide (e.timestamp ≥ now - 120000)) = true := by
    intro e he
    rcases List.mem_append.mp he with h | h
    · simpa using hkeep e h
    · have : e = gapEventOf s := by simpa using h
      subst this
      simp only [gapEventOf, decide_eq_true_eq]
      linarith
  simp only [detectGapBasedPVCs]
  rw [if_neg h6, if_neg h5, if_neg hq, if_neg (show ¬ s.rPeaks.length - 1 < 1 by omega),
    if_pos hgap, if_pos ⟨hprev, hnext, halready⟩]
  show { s with
      inferredPvcEvents := (s.inferredPvcEvents ++ [gapEventOf s]).filter
        (fun e => decide (e.timestamp ≥ now - 120000))
      pvcCount := s.pvcCount + 1 } = _
  rw [List.filter_eq_self.mpr hkeepStep]

/-- C5: gap inference acts only when at least 6 beats exist and the beat
count is a multiple of 5; when the single most recent RR interval exceeds
1.8 × the median of the qualifying (500–1200 ms, at least 5 required)
last-10 trusted RR values, neither bounding beat has a classified PVC
within 200 ms and no inferred PVC already lies inside the interval, then
exactly one inferred event (`gapEventOf`: interval midpoint, confidence
0.5, pathway gap-detected) is appended and the counter incremented; a
second invocation over the same window changes nothing. -/
theorem c5_gap_inference :
    (∀ (s : DetectorState) (now : ℚ), s.rPeaks.length < 6 ∨ s.rPeaks.length % 5 ≠ 0 →
      detectGapBasedPVCs s now = s) ∧
    (∀ (s : DetectorState) (now : ℚ),
      ¬ s.rPeaks.length < 6 → ¬ s.rPeaks.length % 5 ≠ 0 →
      ¬ (gapNormalRRs s.rrHistory).length < 5 →
      s.rPeaks.getD (s.rPeaks.length - 1) 0 - s.rPeaks.getD (s.rPeaks.length - 1 - 1) 0 >
        gapMedian s.rrHistory * (18/10) →
      ¬ (s.pvcEvents.any (fun pvc =>
        decide (|pvc.timestamp - s.rPeaks.getD (s.rPeaks.length - 1 - 1) 0| < 200))) = true →
      ¬ (s.pvcEvents.any (fun pvc =>
        decide (|pvc.timestamp - s.rPeaks.getD (s.rPeaks.length - 1) 0| < 200))) = true →
      ¬ (s.inferredPvcEvents.any (fun pvc =>
        decide (pvc.timestamp > s.rPeaks.getD (s.rPeaks.length - 1 - 1) 0) &&
        decide (pvc.timestamp < s.rPeaks.getD (s.rPeaks.length - 1) 0))) = true →
      (∀ e ∈ s.inferredPvcEvents, now - 120000 ≤ e.timestamp) →
      now - 120000 ≤ s.rPeaks.getD (s.rPeaks.length - 1 - 1) 0 →
      detectGapBasedPVCs s now =
        { s with inferredPvcEvents := s.inferredPvcEvents ++ [gapEventOf s]
                 pvcCount := s.pvcCount + 1 } ∧
      (gapEventOf s).timestamp = s.rPeaks.getD (s.rPeaks.length - 1 - 1) 0 +
        (s.rPeaks.getD (s.rPeaks.length - 1) 0 - s.rPeaks.getD (s.rPeaks.length - 1 - 1) 0) / 2 ∧
      (gapEventOf s).confidence = 1/2 ∧
      (gapEventOf s).detectionPathway = DetectionPathway.gapDetected ∧
      (gapEventOf s).isInferred = true ∧
      detectGapBasedPVCs (detectGapBasedPVCs s now) now = detectGapBasedPVCs s now) := by
  constructor
  · intro s now h
    rcases h with h | h
    · simp only [detectGapBasedPVCs]
      rw [if_pos h]
    · by_cases h6 : s.rPeaks.length < 6
      · simp only [detectGapBasedPVCs]
        rw [if_pos h6]
      · simp only [detectGapBasedPVCs]
        rw [if_neg h6, if_pos h]
  · intro s now h6 h5 hq hgap hprev hnext halready hkeep hprevKeep
    have hfires := detectGap_fires s now h6 h5 hq hgap hprev hnext halready hkeep hprevKeep
    have hmed : 500 < gapMedian s.rrHistory := gapMedian_pos (by omega)
    have hcurpos : 0 < s.rPeaks.getD (s.rPeaks.length - 1) 0 -
        s.rPeaks.getD (s.rPeaks.length - 1 - 1) 0 := by nlinarith
    refine ⟨hfires, rfl, rfl, rfl, rfl, ?_⟩
    rw [hfires]
    apply detectGap_keepAll_noop
    · intro e he
      rcases List.mem_append.mp he with h | h
      · exact hkeep e h
      · have he2 : e = gapEventOf s := by simpa using h
        subst he2
        simp only [gapEventOf]
        linarith
    · intro hgap2
      apply List.any_eq_true.mpr
      refine ⟨gapEventOf s, List.mem_append.mpr (Or.inr (by simp)), ?_⟩
      rw [Bool.and_eq_true, decide_eq_true_eq, decide_eq_true_eq]
      simp only [gapEventOf]
      constructor <;> linarith

/-- C5 witness: ten beats with a 1600 ms final gap against a trusted
median of 840 ms produce exactly one inferred event at the midpoint
t = 7520 with confidence 0.5, and a second invocation is a no-op. -/
theorem c5_gap_inference_witness :
    (detectGapBasedPVCs gapState10 8320).inferredPvcEvents = [gapEventOf gapState10] ∧
    (gapEventOf gapState10).timestamp = 7520 ∧
    (gapEventOf gapState10).confidence = 1/2 ∧
    (gapEventOf gapState10).detectionPathway = DetectionPathway.gapDetected ∧
    (detectGapBasedPVCs gapState10 8320).pvcCount = 1 ∧
    detectGapBasedPVCs (detectGapBasedPVCs gapState10 8320) 8320 =
      detectGapBasedPVCs gapState10 8320 := by
  have h := c5_gap_inference.2 gapState10 8320 (by decide) (by decide) (by decide) (by decide)
    (by decide) (by decide) (by decide) (by decide) (by decide)
  exact ⟨by rw [h.1]; decide, by decide, h.2.2.1, h.2.2.2.1, by rw [h.1]; decide, h.2.2.2.2.2⟩
/-! ## C2: contamination of the trusted RR history -/

/-- C2: the trusted-history filter does not keep out intervals bordering a
PVC-flagged beat.  In `c2run` a ninth beat arrives 700 ms after the last
one with amplitude 900 and is flagged as a PVC (an event within 100 ms of
t = 6580 is recorded), yet the bordering 700 ms interval enters
`rrHistory`: the raw current RR is appended before classification, and
`updateRRHistory` runs before the beat's PVC event is pushed, so the
100 ms-tolerance endpoint check cannot see it. -/
theorem c2_rr_contamination :
    (700 : ℚ) ∈ c2run.rrHistory ∧
    c2run.pvcEvents.any (fun e => decide (|e.timestamp - 6580| < 100)) = true ∧
    c2run.isLearningMode = false := by decide

/-! ## C6: retention bounds -/

theorem foldPeaks_ecgBuffer (data : List ℚ) (now : ℚ) :
    ∀ (ps : List Peak) (s : DetectorState),
      (ps.foldl (fun st p => processPeak st p data now) s).ecgBuffer = s.ecgBuffer := by
  intro ps
  induction ps with
  | nil => intro s; rfl
  | cons p ps ih =>
      intro s
      rw [List.foldl_cons, ih, processPeak_ecgBuffer]

theorem foldPeaks_timeBuffer (data : List ℚ) (now : ℚ) :
    ∀ (ps : List Peak) (s : DetectorState),
      (ps.foldl (fun st p => processPeak st p data now) s).timeBuffer = s.timeBuffer := by
  intro ps
  induction ps with
  | nil => intro s; rfl
  | cons p ps ih =>
      intro s
      rw [List.foldl_cons, ih, processPeak_timeBuffer]

theorem detectBeats_ecgBuffer (s : DetectorState) (now : ℚ) :
    (detectBeats s now).ecgBuffer = s.ecgBuffer := by
  simp only [detectBeats]
  repeat' split
  all_goals simp [foldPeaks_ecgBuffer]

theorem detectBeats_timeBuffer (s : DetectorState) (now : ℚ) :
    (detectBeats s now).timeBuffer = s.timeBuffer := by
  simp only [detectBeats]
  repeat' split
  all_goals simp [foldPeaks_timeBuffer]

theorem stepSample_buffers_le (s : DetectorState) (v t : ℚ)
    (halign : s.ecgBuffer.length = s.timeBuffer.length)
    (hb : s.ecgBuffer.length ≤ 390) :
    (stepSample s (v, t)).ecgBuffer.length ≤ 390 ∧
    (stepSample s (v, t)).timeBuffer.length ≤ 390 ∧
    (stepSample s (v, t)).ecgBuffer.length = (stepSample s (v, t)).timeBuffer.length := by
  simp only [stepSample, processECGSample]
  repeat' split
  all_goals simp only [detectBeats_ecgBuffer, detectBeats_timeBuffer, jsSliceNeg_length,
    List.length_append, List.length_cons, List.length_nil] at *
  all_goals omega

theorem runSamples_buffers_le (samples : List (ℚ × ℚ)) :
    ∀ (s : DetectorState), s.ecgBuffer.length = s.timeBuffer.length →
      s.ecgBuffer.length ≤ 390 →
      (runSamples s samples).ecgBuffer.length ≤ 390 ∧
      (runSamples s samples).timeBuffer.length ≤ 390 ∧
      (runSamples s samples).ecgBuffer.length = (runSamples s samples).timeBuffer.length := by
  induction samples with
  | nil => intro s h1 h2; exact ⟨h2, h1 ▸ h2, h1⟩
  | cons x xs ih =>
      intro s h1 h2
      simp only [runSamples, List.foldl_cons] at *
      obtain ⟨ha, hb, hc⟩ := stepSample_buffers_le s x.1 x.2 h1 h2
      exact ih (stepSample s x) hc ha

theorem foldPeaks_templates_le (data : List ℚ) (now : ℚ) :
    ∀ (ps : List Peak) (s : DetectorState), s.normalTemplates.length ≤ 12 →
      (ps.foldl (fun st p => processPeak st p data now) s).normalTemplates.length ≤ 12 := by
  intro ps
  induction ps with
  | nil => intro s h; exact h
  | cons p ps ih =>
      intro s h
      rw [List.foldl_cons]
      exact ih _ (processPeak_templates_le _ _ _ _ h)

theorem detectBeats_templates_le (s : DetectorState) (now : ℚ)
    (h : s.normalTemplates.length ≤ 12) :
    (detectBeats s now).normalTemplates.length ≤ 12 := by
  simp only [detectBeats]
  repeat' split
  all_goals
    first
      | exact h
      | (simp only [detectGapBasedPVCs_normalTemplates]
         exact foldPeaks_templates_le _ _ _ _ h)
      | exact foldPeaks_templates_le _ _ _ _ h

theorem stepSample_templates_le (s : DetectorState) (x : ℚ × ℚ)
    (h : s.normalTemplates.length ≤ 12) :
    (stepSample s x).normalTemplates.length ≤ 12 := by
  simp only [stepSample, processECGSample]
  repeat' split
  all_goals
    first
      | exact detectBeats_templates_le _ _ h
      | exact h

theorem cleanOldData_rPeaks_fresh (s : DetectorState) (cutoff : ℚ)
    (hs : List.Sorted (fun a b => a ≤ b) s.rPeaks)
    (hex : ∃ w ∈ s.rPeaks, cutoff ≤ w) :
    ∀ u ∈ (cleanOldData s cutoff).rPeaks, cutoff ≤ u := by
  intro u hu
  simp only [cleanOldData] at hu
  split at hu
  case isTrue hg =>
    obtain ⟨i, hi, rfl⟩ := List.mem_map.mp hu
    exact of_decide_eq_true (List.mem_filter.mp hi).2
  case isFalse hg =>
    obtain ⟨w, hw, hcw⟩ := hex
    obtain ⟨i, hi, hiw⟩ := List.mem_iff_getElem.mp hw
    have hmem : i ∈ (List.range s.rPeaks.length).filter
        (fun j => decide (s.rPeaks.getD j 0 ≥ cutoff)) := by
      refine List.mem_filter.mpr ⟨List.mem_range.mpr hi, ?_⟩
      rw [decide_eq_true_eq, List.getD_eq_getElem s.rPeaks 0 hi, hiw]
      exact hcw
    have hpos : 0 < ((List.range s.rPeaks.length).filter
        (fun j => decide (s.rPeaks.getD j 0 ≥ cutoff))).length :=
      List.length_pos.mpr (List.ne_nil_of_mem hmem)
    have hB : ¬ ((List.range s.rPeaks.length).filter
        (fun j => decide (s.rPeaks.getD j 0 ≥ cutoff))).getD 0 0 > 0 :=
      fun hb => hg ⟨hpos, hb⟩
    have h0 : ((List.range s.rPeaks.length).filter
        (fun j => decide (s.rPeaks.getD j 0 ≥ cutoff))).getD 0 0 = 0 :=
      Nat.eq_zero_of_not_pos hB
    have h0mem : 0 ∈ (List.range s.rPeaks.length).filter
        (fun j => decide (s.rPeaks.getD j 0 ≥ cutoff)) := by
      rw [← h0, List.getD_eq_getElem _ 0 hpos]
      exact List.getElem_mem hpos
    have hhead : cutoff ≤ s.rPeaks.getD 0 0 :=
      of_decide_eq_true (List.mem_filter.mp h0mem).2
    rcases hrp : s.rPeaks with _ | ⟨a, l⟩
    · rw [hrp] at hu; cases hu
    · rw [hrp] at hu hhead hs
      have ha : cutoff ≤ a := by simpa using hhead
      rcases List.mem_cons.mp hu with rfl | hu'
      · exact ha
      · have hau := List.rel_of_sorted_cons hs u hu'
        linarith

theorem processPeak_rPeaks_fresh (s : DetectorState) (pt : Peak) (data : List ℚ)
    (now : ℚ) (hs : List.Sorted (fun a b => a ≤ b) (s.rPeaks ++ [pt.time])) :
    ∀ u ∈ (processPeak s pt data now).rPeaks, pt.time - 120000 ≤ u := by
  intro u
  simp only [processPeak]
  repeat' split
  all_goals intro hu
  all_goals try simp only [handleLearningMode_rPeaks, updateRRHistory_rPeaks,
    storeNormalTemplate_rPeaks] at hu
  all_goals exact cleanOldData_rPeaks_fresh _ _ hs ⟨pt.time, by simp, by linarith⟩ u hu

/-- C6 counterexample run: feeding `c6samples` from a fresh detector leaves
a beat at t = 8400 in the beat history while the latest processed sample
carries timestamp 148200, so the retained entry is 139 800 ms old —
pruning happens only when a new beat is accepted, never from the passage
of buffered time alone. -/
theorem c6_stale_history_counterexample :
    (runSamples (initialState 130 1) c6samples).rPeaks = [8400] ∧
    jsLast (runSamples (initialState 130 1) c6samples).timeBuffer = 148200 ∧
    ¬ (∀ u ∈ (runSamples (initialState 130 1) c6samples).rPeaks,
        jsLast (runSamples (initialState 130 1) c6samples).timeBuffer - 120000 ≤ u) := by
  have h1 : runSamples (initialState 130 1) (c6samples.take 60) = c6chk 60 := by decide
  have h2 : runSamples (c6chk 60) ((c6samples.drop 60).take 60) = c6chk 120 := by decide
  have key : runSamples (initialState 130 1) c6samples =
      runSamples (c6chk 120) (c6samples.drop 120) := by
    conv_lhs => rw [← List.take_append_drop 60 c6samples]
    rw [runSamples_append, h1]
    conv_lhs => rw [show c6samples.drop 60 =
      (c6samples.drop 60).take 60 ++ (c6samples.drop 60).drop 60 from
      (List.take_append_drop 60 (c6samples.drop 60)).symm]
    rw [runSamples_append, h2, List.drop_drop]
  rw [key]
  decide

/-- C6 amended: the bounds that do hold.  (i) From a fresh detector the
sample and timestamp buffers never exceed 390 entries; (ii) a processing
step never grows the template set beyond 12; (iii) when a beat is
accepted at time T (beats arriving in nondecreasing time order), every
beat-history entry retained after the call is at most 2 minutes older
than T — the histories are pruned only at beat acceptance, relative to
the accepted beat's time, not to the current sample time; (iv) the beat
history manager retains no record more than 2 hours older than the most
recently added record. -/
theorem c6_bounds_amended :
    (∀ (rate now0 : ℚ) (samples : List (ℚ × ℚ)),
      (runSamples (initialState rate now0) samples).ecgBuffer.length ≤ 390 ∧
      (runSamples (initialState rate now0) samples).timeBuffer.length ≤ 390) ∧
    (∀ (s : DetectorState) (x : ℚ × ℚ), s.normalTemplates.length ≤ 12 →
      (stepSample s x).normalTemplates.length ≤ 12) ∧
    (∀ (s : DetectorState) (pt : Peak) (data : List ℚ) (now : ℚ),
      List.Sorted (fun a b => a ≤ b) (s.rPeaks ++ [pt.time]) →
      ∀ u ∈ (processPeak s pt data now).rPeaks, pt.time - 120000 ≤ u) ∧
    (∀ (beats : List BeatRecord) (ts : ℚ) (pvc : Bool) (conf : ℚ),
      ∀ b ∈ addBeat beats ts pvc conf, ts - 2 * 60 * 60 * 1000 ≤ b.timestamp) := by
  refine ⟨?_, ?_, ?_, ?_⟩
  · intro rate now0 samples
    have h := runSamples_buffers_le samples (initialState rate now0) rfl (by
      show (0 : ℕ) ≤ 390
      omega)
    exact ⟨h.1, h.2.1⟩
  · intro s x h
    exact stepSample_templates_le s x h
  · intro s pt data now hs
    exact processPeak_rPeaks_fresh s pt data now hs
  · intro beats ts pvc conf b hb
    exact of_decide_eq_true (List.mem_filter.mp hb).2

/-- C6 amended, instantiated: a two-sample run respects the buffer bound;
a step from `detectingState8` keeps at most 12 templates; after the beat
at t = 6580 every retained beat time is within 2 minutes of it; and a
record added at t = 100 bounds the history age. -/
theorem c6_bounds_amended_witness :
    (runSamples (initialState 130 1) [(5, 10), (6, 20)]).ecgBuffer.length ≤ 390 ∧
    (stepSample detectingState8 (5, 10)).normalTemplates.length ≤ 12 ∧
    ((6580 : ℚ) - 120000 ≤ 840) ∧
    ((100 : ℚ) - 2 * 60 * 60 * 1000 ≤ 100) := by
  refine ⟨(c6_bounds_amended.1 130 1 [(5, 10), (6, 20)]).1,
    c6_bounds_amended.2.1 detectingState8 (5, 10) (by decide),
    c6_bounds_amended.2.2.1 detectingState8 ⟨6580, 10, 400⟩ (spikeData 400) 6580
      (by decide) 840 (by decide),
    c6_bounds_amended.2.2.2 [] 100 true 1
      { timestamp := 100, isPVC := true, confidence := 1 } (by decide)⟩

/-! ## C8: training confidence, quality score and the discard policy -/

theorem clusterBeats_avgCorrelation (bs : List TrainingBeat) (c : MorphologyCluster)
    (hc : c ∈ clusterBeatsByMorphology bs) :
    c.avgCorrelation = calculateAvgIntraClusterCorrelation c.beats := by
  simp only [clusterBeatsByMorphology] at hc
  rw [jsSortBy_mem] at hc
  obtain ⟨cb, hcb, rfl⟩ := List.mem_map.mp hc
  rfl

/-- C8: when the clustering finds a dominant cluster `c0` (head of the
size-sorted cluster list), the training confidence is
min(1, dominance × avgIntraClusterCorrelation × 1.2) with dominance the
fraction of clustered beats in `c0`, and the quality score is the
unweighted mean of min(1, size/20), the average intra-cluster
correlation, and max(0, 1 − qrsVariance/100); and whenever the resulting
confidence is below 0.5 `finalizeLearning` discards the templates
entirely and proceeds to Detecting mode. -/
theorem c8_training_formulas :
    (∀ (bs : List LearningBeat) (rate : ℚ) (c0 : MorphologyCluster)
       (rest : List MorphologyCluster),
       clusterBeatsByMorphology (normalizeBeats bs) = c0 :: rest →
       (trainFromBeats bs rate).confidence =
         min 1 ((c0.beats.length : ℚ) /
             ((c0 :: rest).foldl (fun a c => a + (c.beats.length : ℚ)) 0) *
           calculateAvgIntraClusterCorrelation c0.beats * (12/10)) ∧
       (trainFromBeats bs rate).qualityScore =
         (min 1 ((c0.beats.length : ℚ) / 20) +
          calculateAvgIntraClusterCorrelation c0.beats +
          max 0 (1 -
            ((c0.beats.map (fun b => b.qrsWidth)).map (fun w =>
                (w - (c0.beats.map (fun b => b.qrsWidth)).sum /
                  (((c0.beats.map (fun b => b.qrsWidth)).length : ℚ))) ^ 2)).sum /
              (((c0.beats.map (fun b => b.qrsWidth)).length : ℚ)) / 100)) / 3) ∧
    (∀ (s : DetectorState) (now : ℚ),
       (trainFromBeats s.learningBeats s.samplingRate).confidence < 1/2 →
       (finalizeLearning s now).normalTemplates = [] ∧
       (finalizeLearning s now).isLearningMode = false) := by
  constructor
  · intro bs rate c0 rest hcl
    have havg : c0.avgCorrelation = calculateAvgIntraClusterCorrelation c0.beats :=
      clusterBeats_avgCorrelation (normalizeBeats bs) c0
        (by rw [hcl]; exact List.mem_cons_self c0 rest)
    constructor
    · simp only [trainFromBeats, hcl, findDominantCluster, calculateTrainingConfidence]
      rw [havg]
    · simp only [trainFromBeats, hcl, findDominantCluster, calculateQualityScore]
      rw [havg]
  · intro s now hconf
    constructor
    · simp only [finalizeLearning, updateRRHistoryFromLearning]
      split
      all_goals simp [hconf]
    · exact finalizeLearning_isLearningMode s now

/-- C8 at concrete inputs: three identical beats form one dominant cluster
(confidence 1, quality (1·3/20 is capped at 3/20, correlation 1,
consistency 1 → 43/60)); an empty learning batch trains with confidence
0 < 0.5, so finalization discards the templates and leaves Learning. -/
theorem c8_training_formulas_witness :
    (trainFromBeats identicalBatch3 130).confidence = 1 ∧
    (trainFromBeats identicalBatch3 130).qualityScore = 43/60 ∧
    (finalizeLearning learningState 0).normalTemplates = [] ∧
    (finalizeLearning learningState 0).isLearningMode = false := by
  have hcl : clusterBeatsByMorphology (normalizeBeats identicalBatch3) =
      ({ beats := [{ data := spikeData 400, index := 10, amplitude := 400,
                     qrsWidth := 80, normalizedMorphology := spikeTemplate },
                   { data := spikeData 400, index := 10, amplitude := 400,
                     qrsWidth := 80, normalizedMorphology := spikeTemplate },
                   { data := spikeData 400, index := 10, amplitude := 400,
                     qrsWidth := 80, normalizedMorphology := spikeTemplate }]
         centroid := spikeTemplate
         avgCorrelation := 1
         isNormal := false } : MorphologyCluster) :: [] := by decide
  have h := c8_training_formulas.1 identicalBatch3 130 _ [] hcl
  refine ⟨?_, ?_,
    (c8_training_formulas.2 learningState 0 (by decide)).1,
    (c8_training_formulas.2 learningState 0 (by decide)).2⟩
  · rw [h.1]; decide
  · rw [h.2]; decide
